import Mathlib

/-!
Verification development for the `uguid` / `gpt_disk_io` repository: a
shallow embedding of the GUID value type and of the block-oriented GPT
disk controller, with theorems checking the specification's claims.

Bytes are modelled as `Nat` values (< 256 where well-formedness matters),
byte strings as `List Nat`, and the block medium as a function from byte
address to byte.
-/

/-! ## Byte-level primitives -/

/-- Little-endian encoding of `n` into `w` bytes. -/
def natToLe (w n : Nat) : List Nat :=
  match w with
  | 0 => []
  | w + 1 => (n % 256) :: natToLe w (n / 256)

/-- Little-endian decoding of a byte list into a natural number. -/
def leToNat (l : List Nat) : Nat :=
  match l with
  | [] => 0
  | b :: rest => b + 256 * leToNat rest

theorem natToLe_length (w n : Nat) : (natToLe w n).length = w := by
  induction w generalizing n with
  | zero => rfl
  | succ w ih => simp [natToLe, ih]

theorem leToNat_natToLe (w n : Nat) (h : n < 256 ^ w) :
    leToNat (natToLe w n) = n := by
  induction w generalizing n with
  | zero => simp [natToLe, leToNat]; omega
  | succ w ih =>
    have hdiv : n / 256 < 256 ^ w := by
      rw [Nat.div_lt_iff_lt_mul (by norm_num)]
      calc n < 256 ^ (w + 1) := h
        _ = 256 ^ w * 256 := by ring
    simp [natToLe, leToNat, ih (n / 256) hdiv]
    omega

/-! ## The Guid value type

Modelled from the spec: the `uguid` crate's implementation is not under
`src/` (only its tests are), so the 16-byte mixed-endian identifier type
is reconstructed from the spec's GUID boundary description (§6) and the
public API exercised by `tests/test_guid.rs`: fields `time_low` (4
little-endian bytes), `time_mid` (2), `time_high_and_version` (2),
`clock_seq_high_and_reserved` (1), `clock_seq_low` (1), `node` (6).
-/

structure Guid where
  time_low : List Nat
  time_mid : List Nat
  time_high_and_version : List Nat
  clock_seq_high_and_reserved : Nat
  clock_seq_low : Nat
  node : List Nat
deriving DecidableEq, Repr

/-- Modelled from the spec: `Guid::new` stores the six constructor
arguments directly (the first three supplied as little-endian byte
arrays). -/
def Guid.new (time_low time_mid time_high_and_version : List Nat)
    (clock_seq_high_and_reserved clock_seq_low : Nat) (node : List Nat) : Guid :=
  ⟨time_low, time_mid, time_high_and_version,
   clock_seq_high_and_reserved, clock_seq_low, node⟩

/-- Modelled from the spec: `Guid::from_bytes` splits a 16-byte array
into the six fields, in field order. -/
def Guid.from_bytes (b : List Nat) : Guid :=
  ⟨b.take 4, (b.drop 4).take 2, (b.drop 6).take 2,
   b.getD 8 0, b.getD 9 0, (b.drop 10).take 6⟩

/-- Modelled from the spec: `Guid::to_bytes` concatenates the six fields
in field order. -/
def Guid.to_bytes (g : Guid) : List Nat :=
  g.time_low ++ g.time_mid ++ g.time_high_and_version ++
    [g.clock_seq_high_and_reserved, g.clock_seq_low] ++ g.node

/-- The all-zero GUID. -/
def Guid.zero : Guid := ⟨[0, 0, 0, 0], [0, 0], [0, 0], 0, 0, [0, 0, 0, 0, 0, 0]⟩

/-- Modelled from the spec: an all-zero check on the GUID value. -/
def Guid.is_zero (g : Guid) : Bool := g == Guid.zero

/-- Well-formedness of a `Guid`: field lengths as in the packed 16-byte
representation, every byte below 256. -/
def Guid.wf (g : Guid) : Prop :=
  g.time_low.length = 4 ∧ g.time_mid.length = 2 ∧
  g.time_high_and_version.length = 2 ∧ g.node.length = 6 ∧
  (∀ b ∈ g.time_low, b < 256) ∧ (∀ b ∈ g.time_mid, b < 256) ∧
  (∀ b ∈ g.time_high_and_version, b < 256) ∧
  g.clock_seq_high_and_reserved < 256 ∧ g.clock_seq_low < 256 ∧
  (∀ b ∈ g.node, b < 256)

instance (g : Guid) : Decidable g.wf := by
  unfold Guid.wf; infer_instance

/-- The UUID variant, per the standard layout. -/
inductive Variant where
  | ReservedNcs
  | Rfc4122
  | ReservedMicrosoft
  | ReservedFuture
deriving DecidableEq, Repr

/-- Modelled from the spec: variant bits are the top bits of
`clock_seq_high_and_reserved` per the standard UUID-like layout:
`0xx` reserved NCS, `10x` RFC 4122, `110` Microsoft, `111` future. -/
def Guid.variant (g : Guid) : Variant :=
  let b := g.clock_seq_high_and_reserved
  if b / 128 % 2 = 0 then .ReservedNcs
  else if b / 64 % 2 = 0 then .Rfc4122
  else if b / 32 % 2 = 0 then .ReservedMicrosoft
  else .ReservedFuture

/-- Modelled from the spec: the version is the high nibble of the
second (most significant, the type is little-endian) byte of
`time_high_and_version`. -/
def Guid.version (g : Guid) : Nat :=
  g.time_high_and_version.getD 1 0 / 16

/-- Modelled from the spec: `Guid::from_random_bytes` forces the
standard RFC 4122 version-4 bit pattern onto the random bytes: the high
nibble of byte 7 becomes `0100` and the top two bits of byte 8 become
`10`, all other bytes are kept. -/
def Guid.from_random_bytes (b : List Nat) : Guid :=
  Guid.from_bytes ((b.set 7 (b.getD 7 0 % 16 + 64)).set 8 (b.getD 8 0 % 64 + 128))

/-! ### GUID string format -/

/-- ASCII code of the lower-hex digit for a nibble. -/
def hexCharLower (n : Nat) : Nat := if n < 10 then 48 + n else 87 + n

/-- Value of an ASCII hex digit (either case), `none` when the character
is not a hex digit. -/
def hexDigitValue (c : Nat) : Option Nat :=
  if 48 ≤ c ∧ c ≤ 57 then some (c - 48)
  else if 97 ≤ c ∧ c ≤ 102 then some (c - 87)
  else if 65 ≤ c ∧ c ≤ 70 then some (c - 55)
  else none

/-- Two lower-hex characters for one byte, most significant nibble
first. -/
def byteToHexLower (b : Nat) : List Nat :=
  [hexCharLower (b / 16), hexCharLower (b % 16)]

/-- Lower-hex characters of a byte string, in order. -/
def bytesToHexLower (l : List Nat) : List Nat :=
  (l.map byteToHexLower).flatten

/-- Modelled from the spec: `Guid::to_ascii_hex_lower` produces the
canonical 36-character hyphenated form; the first three groups are
rendered most-significant-byte first (the stored fields are
little-endian), the last two groups in byte order. -/
def Guid.to_ascii_hex_lower (g : Guid) : List Nat :=
  bytesToHexLower g.time_low.reverse ++ [45] ++
  bytesToHexLower g.time_mid.reverse ++ [45] ++
  bytesToHexLower g.time_high_and_version.reverse ++ [45] ++
  byteToHexLower g.clock_seq_high_and_reserved ++
  byteToHexLower g.clock_seq_low ++ [45] ++
  bytesToHexLower g.node

/-- Errors of GUID string parsing, as in `uguid::GuidFromStrError`. -/
inductive GuidFromStrError where
  | Length
  | Separator (index : Nat)
  | Hex (index : Nat)
deriving DecidableEq, Repr

deriving instance DecidableEq for Except

/-- One byte parsed from the two hex characters at positions `i`,
`i + 1`; the error carries the index of the offending character. -/
def parseHexByte (s : List Nat) (i : Nat) : Except GuidFromStrError Nat :=
  match hexDigitValue (s.getD i 0), hexDigitValue (s.getD (i + 1) 0) with
  | some hi, some lo => .ok (hi * 16 + lo)
  | none, _ => .error (.Hex i)
  | some _, none => .error (.Hex (i + 1))

/-- Modelled from the spec: `Guid::try_parse` requires exactly 36
characters (else the length error), hyphens at indexes 8, 13, 18 and 23
(else a separator error at that index, checked in order), and hex digits
everywhere else (else a hex error at the character's index); the groups
are decoded mixed-endian into the stored fields. -/
def Guid.try_parse (s : List Nat) : Except GuidFromStrError Guid :=
  if s.length ≠ 36 then .error .Length
  else if s.getD 8 0 ≠ 45 then .error (.Separator 8)
  else if s.getD 13 0 ≠ 45 then .error (.Separator 13)
  else if s.getD 18 0 ≠ 45 then .error (.Separator 18)
  else if s.getD 23 0 ≠ 45 then .error (.Separator 23)
  else do
    let b0 ← parseHexByte s 0
    let b1 ← parseHexByte s 2
    let b2 ← parseHexByte s 4
    let b3 ← parseHexByte s 6
    let b4 ← parseHexByte s 9
    let b5 ← parseHexByte s 11
    let b6 ← parseHexByte s 14
    let b7 ← parseHexByte s 16
    let b8 ← parseHexByte s 19
    let b9 ← parseHexByte s 21
    let b10 ← parseHexByte s 24
    let b11 ← parseHexByte s 26
    let b12 ← parseHexByte s 28
    let b13 ← parseHexByte s 30
    let b14 ← parseHexByte s 32
    let b15 ← parseHexByte s 34
    pure (Guid.new [b3, b2, b1, b0] [b5, b4] [b7, b6] b8 b9
      [b10, b11, b12, b13, b14, b15])

/-- ASCII codes of a Lean string, for writing test vectors. -/
def strBytes (s : String) : List Nat := s.data.map Char.toNat

/-- ASCII uppercase conversion of one character code. -/
def asciiUpper (c : Nat) : Nat := if 97 ≤ c ∧ c ≤ 122 then c - 32 else c

example :
    Guid.try_parse (strBytes "01234567-89ab-cdef-0123-456789abcdef") =
      .ok (Guid.new [103, 69, 35, 1] [171, 137] [239, 205] 1 35
        [69, 103, 137, 171, 205, 239]) := by decide

example :
    (Guid.new [103, 69, 35, 1] [171, 137] [239, 205] 1 35
        [69, 103, 137, 171, 205, 239]).to_ascii_hex_lower =
      strBytes "01234567-89ab-cdef-0123-456789abcdef" := by decide

/-! ## Helper lemmas for GUID parsing and formatting -/

/-- A lower-hex ASCII digit (0-9 or a-f). -/
def isLowerHexDigit (c : Nat) : Bool :=
  (48 ≤ c && c ≤ 57) || (97 ≤ c && c ≤ 102)

theorem isLowerHexDigit_hexCharLower (n : Nat) (h : n < 16) :
    isLowerHexDigit (hexCharLower n) = true := by
  interval_cases n <;> decide

theorem hexDigitValue_hexCharLower (n : Nat) (h : n < 16) :
    hexDigitValue (hexCharLower n) = some n := by
  interval_cases n <;> decide

theorem hexDigitValue_upper_hexCharLower (n : Nat) (h : n < 16) :
    hexDigitValue (asciiUpper (hexCharLower n)) = some n := by
  unfold hexDigitValue asciiUpper hexCharLower
  interval_cases n <;> simp

theorem parseHexByte_of_byte (s : List Nat) (i b : Nat)
    (h1 : hexDigitValue (s.getD i 0) = some (b / 16))
    (h2 : hexDigitValue (s.getD (i + 1) 0) = some (b % 16)) :
    parseHexByte s i = .ok b := by
  unfold parseHexByte
  rw [h1, h2]
  have hdm : b / 16 * 16 + b % 16 = b := by omega
  simp [hdm]

theorem list_len2 (l : List Nat) (h : l.length = 2) : ∃ a0 a1, l = [a0, a1] := by
  rcases l with _ | ⟨a0, l⟩
  · simp at h
  rcases l with _ | ⟨a1, l⟩
  · simp at h
  rcases l with _ | ⟨a2, l⟩
  · exact ⟨a0, a1, rfl⟩
  · simp only [List.length_cons] at h; omega

theorem list_len4 (l : List Nat) (h : l.length = 4) :
    ∃ a0 a1 a2 a3, l = [a0, a1, a2, a3] := by
  rcases l with _ | ⟨a0, l⟩
  · simp at h
  rcases l with _ | ⟨a1, l⟩
  · simp at h
  obtain ⟨b0, b1, hb⟩ := list_len2 l (by simp only [List.length_cons] at h; omega)
  exact ⟨a0, a1, b0, b1, by rw [hb]⟩

theorem list_len6 (l : List Nat) (h : l.length = 6) :
    ∃ a0 a1 a2 a3 a4 a5, l = [a0, a1, a2, a3, a4, a5] := by
  rcases l with _ | ⟨a0, l⟩
  · simp at h
  rcases l with _ | ⟨a1, l⟩
  · simp at h
  obtain ⟨b0, b1, b2, b3, hb⟩ := list_len4 l (by
    simp only [List.length_cons] at h; omega)
  exact ⟨a0, a1, b0, b1, b2, b3, by rw [hb]⟩

theorem list_len16 (l : List Nat) (h : l.length = 16) :
    ∃ a0 a1 a2 a3 a4 a5 a6 a7 a8 a9 a10 a11 a12 a13 a14 a15,
      l = [a0, a1, a2, a3, a4, a5, a6, a7, a8, a9, a10, a11, a12, a13, a14, a15] := by
  rcases l with _ | ⟨a0, l⟩
  · simp at h
  rcases l with _ | ⟨a1, l⟩
  · simp at h
  rcases l with _ | ⟨a2, l⟩
  · simp at h
  rcases l with _ | ⟨a3, l⟩
  · simp at h
  rcases l with _ | ⟨a4, l⟩
  · simp at h
  rcases l with _ | ⟨a5, l⟩
  · simp at h
  rcases l with _ | ⟨a6, l⟩
  · simp at h
  rcases l with _ | ⟨a7, l⟩
  · simp at h
  rcases l with _ | ⟨a8, l⟩
  · simp at h
  rcases l with _ | ⟨a9, l⟩
  · simp at h
  rcases l with _ | ⟨a10, l⟩
  · simp at h
  rcases l with _ | ⟨a11, l⟩
  · simp at h
  rcases l with _ | ⟨a12, l⟩
  · simp at h
  rcases l with _ | ⟨a13, l⟩
  · simp at h
  rcases l with _ | ⟨a14, l⟩
  · simp at h
  rcases l with _ | ⟨a15, l⟩
  · simp at h
  rcases l with _ | ⟨a16, l⟩
  · exact ⟨a0, a1, a2, a3, a4, a5, a6, a7, a8, a9, a10, a11, a12, a13, a14, a15, rfl⟩
  · simp only [List.length_cons] at h; omega

/-! ## Claim theorems: the GUID value type -/

/-- C9: byte-level encode/decode of `Guid` is exact: `from_bytes` then
`to_bytes` is the identity on 16-byte arrays, `Guid::new` agrees with
`Guid::from_bytes` of the concatenation of its arguments in field order,
and each field accessor returns the corresponding constructor
argument. -/
theorem guid_bytes_exact (b tl tm th nd : List Nat) (a c : Nat)
    (hb : b.length = 16) (h1 : tl.length = 4) (h2 : tm.length = 2)
    (h3 : th.length = 2) (h4 : nd.length = 6) :
    (Guid.from_bytes b).to_bytes = b ∧
    Guid.new tl tm th a c nd = Guid.from_bytes (tl ++ tm ++ th ++ [a, c] ++ nd) ∧
    (Guid.new tl tm th a c nd).time_low = tl ∧
    (Guid.new tl tm th a c nd).time_mid = tm ∧
    (Guid.new tl tm th a c nd).time_high_and_version = th ∧
    (Guid.new tl tm th a c nd).clock_seq_high_and_reserved = a ∧
    (Guid.new tl tm th a c nd).clock_seq_low = c ∧
    (Guid.new tl tm th a c nd).node = nd := by
  obtain ⟨b0, b1, b2, b3, b4, b5, b6, b7, b8, b9, b10, b11, b12, b13, b14, b15,
    rfl⟩ := list_len16 b hb
  obtain ⟨t0, t1, t2, t3, rfl⟩ := list_len4 tl h1
  obtain ⟨m0, m1, rfl⟩ := list_len2 tm h2
  obtain ⟨v0, v1, rfl⟩ := list_len2 th h3
  obtain ⟨n0, n1, n2, n3, n4, n5, rfl⟩ := list_len6 nd h4
  refine ⟨rfl, rfl, rfl, rfl, rfl, rfl, rfl, rfl⟩

/-- Concrete instantiation of `guid_bytes_exact` at the byte array used
by `test_guid`. -/
theorem guid_bytes_exact_witness :
    ([0x67, 0x45, 0x23, 0x01, 0xab, 0x89, 0xef, 0xcd, 0x01, 0x23, 0x45, 0x67,
        0x89, 0xab, 0xcd, 0xef] : List Nat).length = 16 ∧
    (Guid.from_bytes [0x67, 0x45, 0x23, 0x01, 0xab, 0x89, 0xef, 0xcd, 0x01,
        0x23, 0x45, 0x67, 0x89, 0xab, 0xcd, 0xef]).to_bytes =
      [0x67, 0x45, 0x23, 0x01, 0xab, 0x89, 0xef, 0xcd, 0x01, 0x23, 0x45, 0x67,
        0x89, 0xab, 0xcd, 0xef] ∧
    Guid.new [0x67, 0x45, 0x23, 0x01] [0xab, 0x89] [0xef, 0xcd] 0x01 0x23
        [0x45, 0x67, 0x89, 0xab, 0xcd, 0xef] =
      Guid.from_bytes ([0x67, 0x45, 0x23, 0x01] ++ [0xab, 0x89] ++ [0xef, 0xcd]
        ++ [0x01, 0x23] ++ [0x45, 0x67, 0x89, 0xab, 0xcd, 0xef]) := by
  refine ⟨by decide, ?_, ?_⟩
  · exact (guid_bytes_exact _ [0x67, 0x45, 0x23, 0x01] [0xab, 0x89] [0xef, 0xcd]
      [0x45, 0x67, 0x89, 0xab, 0xcd, 0xef] 0x01 0x23 (by decide) (by decide)
      (by decide) (by decide) (by decide)).1
  · exact (guid_bytes_exact [0x67, 0x45, 0x23, 0x01, 0xab, 0x89, 0xef, 0xcd,
      0x01, 0x23, 0x45, 0x67, 0x89, 0xab, 0xcd, 0xef] [0x67, 0x45, 0x23, 0x01]
      [0xab, 0x89] [0xef, 0xcd] [0x45, 0x67, 0x89, 0xab, 0xcd, 0xef] 0x01 0x23
      (by decide) (by decide) (by decide) (by decide) (by decide)).2.1

/-- C10: `Guid::from_random_bytes` keeps every byte except bytes 7 and 8
(the version and variant bytes), and the result always has variant
RFC 4122 and version 4. -/
theorem from_random_bytes_spec (b : List Nat) (h : b.length = 16) :
    (∀ i, i < 16 → i ≠ 7 → i ≠ 8 →
      (Guid.from_random_bytes b).to_bytes.getD i 0 = b.getD i 0) ∧
    (Guid.from_random_bytes b).variant = Variant.Rfc4122 ∧
    (Guid.from_random_bytes b).version = 4 := by
  obtain ⟨b0, b1, b2, b3, b4, b5, b6, b7, b8, b9, b10, b11, b12, b13, b14, b15,
    rfl⟩ := list_len16 b h
  have key : Guid.from_random_bytes
      [b0, b1, b2, b3, b4, b5, b6, b7, b8, b9, b10, b11, b12, b13, b14, b15] =
      ⟨[b0, b1, b2, b3], [b4, b5], [b6, b7 % 16 + 64], b8 % 64 + 128, b9,
        [b10, b11, b12, b13, b14, b15]⟩ := rfl
  refine ⟨?_, ?_, ?_⟩
  · intro i h1 h2 h3
    rw [key]
    interval_cases i <;> first | rfl | omega
  · rw [key]
    simp only [Guid.variant]
    rw [if_neg (by omega), if_pos (by omega)]
  · rw [key]
    unfold Guid.version
    show (b7 % 16 + 64) / 16 = 4
    omega

/-- Concrete instantiation of `from_random_bytes_spec` at the input of
`test_from_random_bytes`. -/
theorem from_random_bytes_spec_witness :
    ([0x68, 0xc0, 0x5f, 0xd7, 0x78, 0x21, 0xf9, 0x01, 0x66, 0x15, 0xab, 0x54,
        0xe9, 0xcc, 0x44, 0xb0] : List Nat).length = 16 ∧
    (Guid.from_random_bytes [0x68, 0xc0, 0x5f, 0xd7, 0x78, 0x21, 0xf9, 0x01,
        0x66, 0x15, 0xab, 0x54, 0xe9, 0xcc, 0x44, 0xb0]).variant =
      Variant.Rfc4122 ∧
    (Guid.from_random_bytes [0x68, 0xc0, 0x5f, 0xd7, 0x78, 0x21, 0xf9, 0x01,
        0x66, 0x15, 0xab, 0x54, 0xe9, 0xcc, 0x44, 0xb0]).version = 4 := by
  refine ⟨by decide, ?_, ?_⟩
  · exact (from_random_bytes_spec [0x68, 0xc0, 0x5f, 0xd7, 0x78, 0x21, 0xf9,
      0x01, 0x66, 0x15, 0xab, 0x54, 0xe9, 0xcc, 0x44, 0xb0] (by decide)).2.1
  · exact (from_random_bytes_spec [0x68, 0xc0, 0x5f, 0xd7, 0x78, 0x21, 0xf9,
      0x01, 0x66, 0x15, 0xab, 0x54, 0xe9, 0xcc, 0x44, 0xb0] (by decide)).2.2

/-- C6: GUID string parsing errors: every 37-character input fails with
the length error, and on the concrete vectors of `test_guid_error` a hex
digit in a separator position yields the separator error at that index
(8, 13, 18 or 23) and a non-hex character in a hex position yields the
hex error at that character's index. -/
theorem guid_parse_errors (s : List Nat) (h : s.length = 37) :
    Guid.try_parse s = .error .Length ∧
    Guid.try_parse (strBytes "01234567089ab-cdef-0123-456789abcdef") =
      .error (.Separator 8) ∧
    Guid.try_parse (strBytes "01234567-89ab0cdef-0123-456789abcdef") =
      .error (.Separator 13) ∧
    Guid.try_parse (strBytes "01234567-89ab-cdef00123-456789abcdef") =
      .error (.Separator 18) ∧
    Guid.try_parse (strBytes "01234567-89ab-cdef-01230456789abcdef") =
      .error (.Separator 23) ∧
    Guid.try_parse (strBytes "g1234567-89ab-cdef-0123-456789abcdef") =
      .error (.Hex 0) := by
  refine ⟨?_, by decide, by decide, by decide, by decide, by decide⟩
  unfold Guid.try_parse
  rw [if_pos (by omega)]

/-- Concrete instantiation of `guid_parse_errors` at the 37-character
string of `test_guid_error`. -/
theorem guid_parse_errors_witness :
    (strBytes "01234567-89ab-cdef-0123-456789abcdef0").length = 37 ∧
    Guid.try_parse (strBytes "01234567-89ab-cdef-0123-456789abcdef0") =
      .error .Length :=
  ⟨by decide,
   (guid_parse_errors (strBytes "01234567-89ab-cdef-0123-456789abcdef0")
      (by decide)).1⟩

theorem all_hexOrHyphen_byteToHexLower (b : Nat) (hb : b < 256) :
    (byteToHexLower b).all (fun ch => ch == 45 || isLowerHexDigit ch) = true := by
  have h1 := isLowerHexDigit_hexCharLower (b / 16) (by omega)
  have h2 := isLowerHexDigit_hexCharLower (b % 16) (by omega)
  simp [byteToHexLower, h1, h2]

theorem all_hexOrHyphen_bytesToHexLower (l : List Nat) (h : ∀ b ∈ l, b < 256) :
    (bytesToHexLower l).all (fun ch => ch == 45 || isLowerHexDigit ch) = true := by
  induction l with
  | nil => rfl
  | cons b rest ih =>
    show (byteToHexLower b ++ bytesToHexLower rest).all _ = true
    rw [List.all_append]
    rw [all_hexOrHyphen_byteToHexLower b (h b (by simp))]
    rw [ih (fun x hx => h x (by simp [hx]))]
    rfl

set_option maxHeartbeats 1000000 in
/-- C7: formatting a well-formed `Guid` yields the canonical
36-character lower-hex hyphenated form — hyphens exactly at indexes 8,
13, 18 and 23, every other character a lower-hex digit — and parsing the
formatted string back, in lower or upper case, returns the original
value. -/
theorem guid_format_parse_roundtrip (g : Guid) (h : g.wf) :
    g.to_ascii_hex_lower.length = 36 ∧
    g.to_ascii_hex_lower.getD 8 0 = 45 ∧
    g.to_ascii_hex_lower.getD 13 0 = 45 ∧
    g.to_ascii_hex_lower.getD 18 0 = 45 ∧
    g.to_ascii_hex_lower.getD 23 0 = 45 ∧
    (g.to_ascii_hex_lower.all fun ch => ch == 45 || isLowerHexDigit ch) = true ∧
    Guid.try_parse g.to_ascii_hex_lower = .ok g ∧
    Guid.try_parse (g.to_ascii_hex_lower.map asciiUpper) = .ok g := by
  obtain ⟨tl, tm, th, a, c, nd⟩ := g
  obtain ⟨hl1, hl2, hl3, hl4, hq1, hq2, hq3, hqa, hqc, hqn⟩ := h
  obtain ⟨t0, t1, t2, t3, rfl⟩ := list_len4 tl hl1
  obtain ⟨m0, m1, rfl⟩ := list_len2 tm hl2
  obtain ⟨v0, v1, rfl⟩ := list_len2 th hl3
  obtain ⟨n0, n1, n2, n3, n4, n5, rfl⟩ := list_len6 nd hl4
  have ht0 : t0 < 256 := hq1 t0 (by simp)
  have ht1 : t1 < 256 := hq1 t1 (by simp)
  have ht2 : t2 < 256 := hq1 t2 (by simp)
  have ht3 : t3 < 256 := hq1 t3 (by simp)
  have hm0 : m0 < 256 := hq2 m0 (by simp)
  have hm1 : m1 < 256 := hq2 m1 (by simp)
  have hv0 : v0 < 256 := hq3 v0 (by simp)
  have hv1 : v1 < 256 := hq3 v1 (by simp)
  have ha : a < 256 := hqa
  have hc : c < 256 := hqc
  have hn0 : n0 < 256 := hqn n0 (by simp)
  have hn1 : n1 < 256 := hqn n1 (by simp)
  have hn2 : n2 < 256 := hqn n2 (by simp)
  have hn3 : n3 < 256 := hqn n3 (by simp)
  have hn4 : n4 < 256 := hqn n4 (by simp)
  have hn5 : n5 < 256 := hqn n5 (by simp)
  have hlow : Guid.to_ascii_hex_lower ⟨[t0, t1, t2, t3], [m0, m1], [v0, v1], a, c, [n0, n1, n2, n3, n4, n5]⟩ =
      [hexCharLower (t3 / 16),
        hexCharLower (t3 % 16),
        hexCharLower (t2 / 16),
        hexCharLower (t2 % 16),
        hexCharLower (t1 / 16),
        hexCharLower (t1 % 16),
        hexCharLower (t0 / 16),
        hexCharLower (t0 % 16),
        45,
        hexCharLower (m1 / 16),
        hexCharLower (m1 % 16),
        hexCharLower (m0 / 16),
        hexCharLower (m0 % 16),
        45,
        hexCharLower (v1 / 16),
        hexCharLower (v1 % 16),
        hexCharLower (v0 / 16),
        hexCharLower (v0 % 16),
        45,
        hexCharLower (a / 16),
        hexCharLower (a % 16),
        hexCharLower (c / 16),
        hexCharLower (c % 16),
        45,
        hexCharLower (n0 / 16),
        hexCharLower (n0 % 16),
        hexCharLower (n1 / 16),
        hexCharLower (n1 % 16),
        hexCharLower (n2 / 16),
        hexCharLower (n2 % 16),
        hexCharLower (n3 / 16),
        hexCharLower (n3 % 16),
        hexCharLower (n4 / 16),
        hexCharLower (n4 % 16),
        hexCharLower (n5 / 16),
        hexCharLower (n5 % 16)] := rfl
  have hup : (Guid.to_ascii_hex_lower ⟨[t0, t1, t2, t3], [m0, m1], [v0, v1], a, c, [n0, n1, n2, n3, n4, n5]⟩).map asciiUpper =
      [asciiUpper (hexCharLower (t3 / 16)),
        asciiUpper (hexCharLower (t3 % 16)),
        asciiUpper (hexCharLower (t2 / 16)),
        asciiUpper (hexCharLower (t2 % 16)),
        asciiUpper (hexCharLower (t1 / 16)),
        asciiUpper (hexCharLower (t1 % 16)),
        asciiUpper (hexCharLower (t0 / 16)),
        asciiUpper (hexCharLower (t0 % 16)),
        45,
        asciiUpper (hexCharLower (m1 / 16)),
        asciiUpper (hexCharLower (m1 % 16)),
        asciiUpper (hexCharLower (m0 / 16)),
        asciiUpper (hexCharLower (m0 % 16)),
        45,
        asciiUpper (hexCharLower (v1 / 16)),
        asciiUpper (hexCharLower (v1 % 16)),
        asciiUpper (hexCharLower (v0 / 16)),
        asciiUpper (hexCharLower (v0 % 16)),
        45,
        asciiUpper (hexCharLower (a / 16)),
        asciiUpper (hexCharLower (a % 16)),
        asciiUpper (hexCharLower (c / 16)),
        asciiUpper (hexCharLower (c % 16)),
        45,
        asciiUpper (hexCharLower (n0 / 16)),
        asciiUpper (hexCharLower (n0 % 16)),
        asciiUpper (hexCharLower (n1 / 16)),
        asciiUpper (hexCharLower (n1 % 16)),
        asciiUpper (hexCharLower (n2 / 16)),
        asciiUpper (hexCharLower (n2 % 16)),
        asciiUpper (hexCharLower (n3 / 16)),
        asciiUpper (hexCharLower (n3 % 16)),
        asciiUpper (hexCharLower (n4 / 16)),
        asciiUpper (hexCharLower (n4 % 16)),
        asciiUpper (hexCharLower (n5 / 16)),
        asciiUpper (hexCharLower (n5 % 16))] := rfl
  refine ⟨rfl, rfl, rfl, rfl, rfl, ?_, ?_, ?_⟩
  · rw [show Guid.to_ascii_hex_lower ⟨[t0, t1, t2, t3], [m0, m1], [v0, v1], a, c, [n0, n1, n2, n3, n4, n5]⟩ =
        bytesToHexLower [t3, t2, t1, t0] ++ [45] ++
        bytesToHexLower [m1, m0] ++ [45] ++
        bytesToHexLower [v1, v0] ++ [45] ++
        byteToHexLower a ++ byteToHexLower c ++ [45] ++
        bytesToHexLower [n0, n1, n2, n3, n4, n5] from rfl]
    have p1 := all_hexOrHyphen_bytesToHexLower [t3, t2, t1, t0]
      (by intro x hx; simp at hx; rcases hx with rfl | rfl | rfl | rfl <;> omega)
    have p2 := all_hexOrHyphen_bytesToHexLower [m1, m0]
      (by intro x hx; simp at hx; rcases hx with rfl | rfl <;> omega)
    have p3 := all_hexOrHyphen_bytesToHexLower [v1, v0]
      (by intro x hx; simp at hx; rcases hx with rfl | rfl <;> omega)
    have p4 := all_hexOrHyphen_byteToHexLower a (by omega)
    have p5 := all_hexOrHyphen_byteToHexLower c (by omega)
    have p6 := all_hexOrHyphen_bytesToHexLower [n0, n1, n2, n3, n4, n5]
      (by intro x hx; simp at hx
          rcases hx with rfl | rfl | rfl | rfl | rfl | rfl <;> omega)
    simp [List.all_append, p1, p2, p3, p4, p5, p6]
  · rw [hlow]
    unfold Guid.try_parse
    rw [if_neg (fun hcon => hcon rfl), if_neg (fun hcon => hcon rfl),
      if_neg (fun hcon => hcon rfl), if_neg (fun hcon => hcon rfl),
      if_neg (fun hcon => hcon rfl)]
    have e0 : parseHexByte
        [hexCharLower (t3 / 16),
        hexCharLower (t3 % 16),
        hexCharLower (t2 / 16),
        hexCharLower (t2 % 16),
        hexCharLower (t1 / 16),
        hexCharLower (t1 % 16),
        hexCharLower (t0 / 16),
        hexCharLower (t0 % 16),
        45,
        hexCharLower (m1 / 16),
        hexCharLower (m1 % 16),
        hexCharLower (m0 / 16),
        hexCharLower (m0 % 16),
        45,
        hexCharLower (v1 / 16),
        hexCharLower (v1 % 16),
        hexCharLower (v0 / 16),
        hexCharLower (v0 % 16),
        45,
        hexCharLower (a / 16),
        hexCharLower (a % 16),
        hexCharLower (c / 16),
        hexCharLower (c % 16),
        45,
        hexCharLower (n0 / 16),
        hexCharLower (n0 % 16),
        hexCharLower (n1 / 16),
        hexCharLower (n1 % 16),
        hexCharLower (n2 / 16),
        hexCharLower (n2 % 16),
        hexCharLower (n3 / 16),
        hexCharLower (n3 % 16),
        hexCharLower (n4 / 16),
        hexCharLower (n4 % 16),
        hexCharLower (n5 / 16),
        hexCharLower (n5 % 16)] 0 = .ok t3 :=
      parseHexByte_of_byte _ 0 t3
        (hexDigitValue_hexCharLower _ (by omega))
        (hexDigitValue_hexCharLower _ (by omega))
    have e1 : parseHexByte
        [hexCharLower (t3 / 16),
        hexCharLower (t3 % 16),
        hexCharLower (t2 / 16),
        hexCharLower (t2 % 16),
        hexCharLower (t1 / 16),
        hexCharLower (t1 % 16),
        hexCharLower (t0 / 16),
        hexCharLower (t0 % 16),
        45,
        hexCharLower (m1 / 16),
        hexCharLower (m1 % 16),
        hexCharLower (m0 / 16),
        hexCharLower (m0 % 16),
        45,
        hexCharLower (v1 / 16),
        hexCharLower (v1 % 16),
        hexCharLower (v0 / 16),
        hexCharLower (v0 % 16),
        45,
        hexCharLower (a / 16),
        hexCharLower (a % 16),
        hexCharLower (c / 16),
        hexCharLower (c % 16),
        45,
        hexCharLower (n0 / 16),
        hexCharLower (n0 % 16),
        hexCharLower (n1 / 16),
        hexCharLower (n1 % 16),
        hexCharLower (n2 / 16),
        hexCharLower (n2 % 16),
        hexCharLower (n3 / 16),
        hexCharLower (n3 % 16),
        hexCharLower (n4 / 16),
        hexCharLower (n4 % 16),
        hexCharLower (n5 / 16),
        hexCharLower (n5 % 16)] 2 = .ok t2 :=
      parseHexByte_of_byte _ 2 t2
        (hexDigitValue_hexCharLower _ (by omega))
        (hexDigitValue_hexCharLower _ (by omega))
    have e2 : parseHexByte
        [hexCharLower (t3 / 16),
        hexCharLower (t3 % 16),
        hexCharLower (t2 / 16),
        hexCharLower (t2 % 16),
        hexCharLower (t1 / 16),
        hexCharLower (t1 % 16),
        hexCharLower (t0 / 16),
        hexCharLower (t0 % 16),
        45,
        hexCharLower (m1 / 16),
        hexCharLower (m1 % 16),
        hexCharLower (m0 / 16),
        hexCharLower (m0 % 16),
        45,
        hexCharLower (v1 / 16),
        hexCharLower (v1 % 16),
        hexCharLower (v0 / 16),
        hexCharLower (v0 % 16),
        45,
        hexCharLower (a / 16),
        hexCharLower (a % 16),
        hexCharLower (c / 16),
        hexCharLower (c % 16),
        45,
        hexCharLower (n0 / 16),
        hexCharLower (n0 % 16),
        hexCharLower (n1 / 16),
        hexCharLower (n1 % 16),
        hexCharLower (n2 / 16),
        hexCharLower (n2 % 16),
        hexCharLower (n3 / 16),
        hexCharLower (n3 % 16),
        hexCharLower (n4 / 16),
        hexCharLower (n4 % 16),
        hexCharLower (n5 / 16),
        hexCharLower (n5 % 16)] 4 = .ok t1 :=
      parseHexByte_of_byte _ 4 t1
        (hexDigitValue_hexCharLower _ (by omega))
        (hexDigitValue_hexCharLower _ (by omega))
    have e3 : parseHexByte
        [hexCharLower (t3 / 16),
        hexCharLower (t3 % 16),
        hexCharLower (t2 / 16),
        hexCharLower (t2 % 16),
        hexCharLower (t1 / 16),
        hexCharLower (t1 % 16),
        hexCharLower (t0 / 16),
        hexCharLower (t0 % 16),
        45,
        hexCharLower (m1 / 16),
        hexCharLower (m1 % 16),
        hexCharLower (m0 / 16),
        hexCharLower (m0 % 16),
        45,
        hexCharLower (v1 / 16),
        hexCharLower (v1 % 16),
        hexCharLower (v0 / 16),
        hexCharLower (v0 % 16),
        45,
        hexCharLower (a / 16),
        hexCharLower (a % 16),
        hexCharLower (c / 16),
        hexCharLower (c % 16),
        45,
        hexCharLower (n0 / 16),
        hexCharLower (n0 % 16),
        hexCharLower (n1 / 16),
        hexCharLower (n1 % 16),
        hexCharLower (n2 / 16),
        hexCharLower (n2 % 16),
        hexCharLower (n3 / 16),
        hexCharLower (n3 % 16),
        hexCharLower (n4 / 16),
        hexCharLower (n4 % 16),
        hexCharLower (n5 / 16),
        hexCharLower (n5 % 16)] 6 = .ok t0 :=
      parseHexByte_of_byte _ 6 t0
        (hexDigitValue_hexCharLower _ (by omega))
        (hexDigitValue_hexCharLower _ (by omega))
    have e4 : parseHexByte
        [hexCharLower (t3 / 16),
        hexCharLower (t3 % 16),
        hexCharLower (t2 / 16),
        hexCharLower (t2 % 16),
        hexCharLower (t1 / 16),
        hexCharLower (t1 % 16),
        hexCharLower (t0 / 16),
        hexCharLower (t0 % 16),
        45,
        hexCharLower (m1 / 16),
        hexCharLower (m1 % 16),
        hexCharLower (m0 / 16),
        hexCharLower (m0 % 16),
        45,
        hexCharLower (v1 / 16),
        hexCharLower (v1 % 16),
        hexCharLower (v0 / 16),
        hexCharLower (v0 % 16),
        45,
        hexCharLower (a / 16),
        hexCharLower (a % 16),
        hexCharLower (c / 16),
        hexCharLower (c % 16),
        45,
        hexCharLower (n0 / 16),
        hexCharLower (n0 % 16),
        hexCharLower (n1 / 16),
        hexCharLower (n1 % 16),
        hexCharLower (n2 / 16),
        hexCharLower (n2 % 16),
        hexCharLower (n3 / 16),
        hexCharLower (n3 % 16),
        hexCharLower (n4 / 16),
        hexCharLower (n4 % 16),
        hexCharLower (n5 / 16),
        hexCharLower (n5 % 16)] 9 = .ok m1 :=
      parseHexByte_of_byte _ 9 m1
        (hexDigitValue_hexCharLower _ (by omega))
        (hexDigitValue_hexCharLower _ (by omega))
    have e5 : parseHexByte
        [hexCharLower (t3 / 16),
        hexCharLower (t3 % 16),
        hexCharLower (t2 / 16),
        hexCharLower (t2 % 16),
        hexCharLower (t1 / 16),
        hexCharLower (t1 % 16),
        hexCharLower (t0 / 16),
        hexCharLower (t0 % 16),
        45,
        hexCharLower (m1 / 16),
        hexCharLower (m1 % 16),
        hexCharLower (m0 / 16),
        hexCharLower (m0 % 16),
        45,
        hexCharLower (v1 / 16),
        hexCharLower (v1 % 16),
        hexCharLower (v0 / 16),
        hexCharLower (v0 % 16),
        45,
        hexCharLower (a / 16),
        hexCharLower (a % 16),
        hexCharLower (c / 16),
        hexCharLower (c % 16),
        45,
        hexCharLower (n0 / 16),
        hexCharLower (n0 % 16),
        hexCharLower (n1 / 16),
        hexCharLower (n1 % 16),
        hexCharLower (n2 / 16),
        hexCharLower (n2 % 16),
        hexCharLower (n3 / 16),
        hexCharLower (n3 % 16),
        hexCharLower (n4 / 16),
        hexCharLower (n4 % 16),
        hexCharLower (n5 / 16),
        hexCharLower (n5 % 16)] 11 = .ok m0 :=
      parseHexByte_of_byte _ 11 m0
        (hexDigitValue_hexCharLower _ (by omega))
        (hexDigitValue_hexCharLower _ (by omega))
    have e6 : parseHexByte
        [hexCharLower (t3 / 16),
        hexCharLower (t3 % 16),
        hexCharLower (t2 / 16),
        hexCharLower (t2 % 16),
        hexCharLower (t1 / 16),
        hexCharLower (t1 % 16),
        hexCharLower (t0 / 16),
        hexCharLower (t0 % 16),
        45,
        hexCharLower (m1 / 16),
        hexCharLower (m1 % 16),
        hexCharLower (m0 / 16),
        hexCharLower (m0 % 16),
        45,
        hexCharLower (v1 / 16),
        hexCharLower (v1 % 16),
        hexCharLower (v0 / 16),
        hexCharLower (v0 % 16),
        45,
        hexCharLower (a / 16),
        hexCharLower (a % 16),
        hexCharLower (c / 16),
        hexCharLower (c % 16),
        45,
        hexCharLower (n0 / 16),
        hexCharLower (n0 % 16),
        hexCharLower (n1 / 16),
        hexCharLower (n1 % 16),
        hexCharLower (n2 / 16),
        hexCharLower (n2 % 16),
        hexCharLower (n3 / 16),
        hexCharLower (n3 % 16),
        hexCharLower (n4 / 16),
        hexCharLower (n4 % 16),
        hexCharLower (n5 / 16),
        hexCharLower (n5 % 16)] 14 = .ok v1 :=
      parseHexByte_of_byte _ 14 v1
        (hexDigitValue_hexCharLower _ (by omega))
        (hexDigitValue_hexCharLower _ (by omega))
    have e7 : parseHexByte
        [hexCharLower (t3 / 16),
        hexCharLower (t3 % 16),
        hexCharLower (t2 / 16),
        hexCharLower (t2 % 16),
        hexCharLower (t1 / 16),
        hexCharLower (t1 % 16),
        hexCharLower (t0 / 16),
        hexCharLower (t0 % 16),
        45,
        hexCharLower (m1 / 16),
        hexCharLower (m1 % 16),
        hexCharLower (m0 / 16),
        hexCharLower (m0 % 16),
        45,
        hexCharLower (v1 / 16),
        hexCharLower (v1 % 16),
        hexCharLower (v0 / 16),
        hexCharLower (v0 % 16),
        45,
        hexCharLower (a / 16),
        hexCharLower (a % 16),
        hexCharLower (c / 16),
        hexCharLower (c % 16),
        45,
        hexCharLower (n0 / 16),
        hexCharLower (n0 % 16),
        hexCharLower (n1 / 16),
        hexCharLower (n1 % 16),
        hexCharLower (n2 / 16),
        hexCharLower (n2 % 16),
        hexCharLower (n3 / 16),
        hexCharLower (n3 % 16),
        hexCharLower (n4 / 16),
        hexCharLower (n4 % 16),
        hexCharLower (n5 / 16),
        hexCharLower (n5 % 16)] 16 = .ok v0 :=
      parseHexByte_of_byte _ 16 v0
        (hexDigitValue_hexCharLower _ (by omega))
        (hexDigitValue_hexCharLower _ (by omega))
    have e8 : parseHexByte
        [hexCharLower (t3 / 16),
        hexCharLower (t3 % 16),
        hexCharLower (t2 / 16),
        hexCharLower (t2 % 16),
        hexCharLower (t1 / 16),
        hexCharLower (t1 % 16),
        hexCharLower (t0 / 16),
        hexCharLower (t0 % 16),
        45,
        hexCharLower (m1 / 16),
        hexCharLower (m1 % 16),
        hexCharLower (m0 / 16),
        hexCharLower (m0 % 16),
        45,
        hexCharLower (v1 / 16),
        hexCharLower (v1 % 16),
        hexCharLower (v0 / 16),
        hexCharLower (v0 % 16),
        45,
        hexCharLower (a / 16),
        hexCharLower (a % 16),
        hexCharLower (c / 16),
        hexCharLower (c % 16),
        45,
        hexCharLower (n0 / 16),
        hexCharLower (n0 % 16),
        hexCharLower (n1 / 16),
        hexCharLower (n1 % 16),
        hexCharLower (n2 / 16),
        hexCharLower (n2 % 16),
        hexCharLower (n3 / 16),
        hexCharLower (n3 % 16),
        hexCharLower (n4 / 16),
        hexCharLower (n4 % 16),
        hexCharLower (n5 / 16),
        hexCharLower (n5 % 16)] 19 = .ok a :=
      parseHexByte_of_byte _ 19 a
        (hexDigitValue_hexCharLower _ (by omega))
        (hexDigitValue_hexCharLower _ (by omega))
    have e9 : parseHexByte
        [hexCharLower (t3 / 16),
        hexCharLower (t3 % 16),
        hexCharLower (t2 / 16),
        hexCharLower (t2 % 16),
        hexCharLower (t1 / 16),
        hexCharLower (t1 % 16),
        hexCharLower (t0 / 16),
        hexCharLower (t0 % 16),
        45,
        hexCharLower (m1 / 16),
        hexCharLower (m1 % 16),
        hexCharLower (m0 / 16),
        hexCharLower (m0 % 16),
        45,
        hexCharLower (v1 / 16),
        hexCharLower (v1 % 16),
        hexCharLower (v0 / 16),
        hexCharLower (v0 % 16),
        45,
        hexCharLower (a / 16),
        hexCharLower (a % 16),
        hexCharLower (c / 16),
        hexCharLower (c % 16),
        45,
        hexCharLower (n0 / 16),
        hexCharLower (n0 % 16),
        hexCharLower (n1 / 16),
        hexCharLower (n1 % 16),
        hexCharLower (n2 / 16),
        hexCharLower (n2 % 16),
        hexCharLower (n3 / 16),
        hexCharLower (n3 % 16),
        hexCharLower (n4 / 16),
        hexCharLower (n4 % 16),
        hexCharLower (n5 / 16),
        hexCharLower (n5 % 16)] 21 = .ok c :=
      parseHexByte_of_byte _ 21 c
        (hexDigitValue_hexCharLower _ (by omega))
        (hexDigitValue_hexCharLower _ (by omega))
    have e10 : parseHexByte
        [hexCharLower (t3 / 16),
        hexCharLower (t3 % 16),
        hexCharLower (t2 / 16),
        hexCharLower (t2 % 16),
        hexCharLower (t1 / 16),
        hexCharLower (t1 % 16),
        hexCharLower (t0 / 16),
        hexCharLower (t0 % 16),
        45,
        hexCharLower (m1 / 16),
        hexCharLower (m1 % 16),
        hexCharLower (m0 / 16),
        hexCharLower (m0 % 16),
        45,
        hexCharLower (v1 / 16),
        hexCharLower (v1 % 16),
        hexCharLower (v0 / 16),
        hexCharLower (v0 % 16),
        45,
        hexCharLower (a / 16),
        hexCharLower (a % 16),
        hexCharLower (c / 16),
        hexCharLower (c % 16),
        45,
        hexCharLower (n0 / 16),
        hexCharLower (n0 % 16),
        hexCharLower (n1 / 16),
        hexCharLower (n1 % 16),
        hexCharLower (n2 / 16),
        hexCharLower (n2 % 16),
        hexCharLower (n3 / 16),
        hexCharLower (n3 % 16),
        hexCharLower (n4 / 16),
        hexCharLower (n4 % 16),
        hexCharLower (n5 / 16),
        hexCharLower (n5 % 16)] 24 = .ok n0 :=
      parseHexByte_of_byte _ 24 n0
        (hexDigitValue_hexCharLower _ (by omega))
        (hexDigitValue_hexCharLower _ (by omega))
    have e11 : parseHexByte
        [hexCharLower (t3 / 16),
        hexCharLower (t3 % 16),
        hexCharLower (t2 / 16),
        hexCharLower (t2 % 16),
        hexCharLower (t1 / 16),
        hexCharLower (t1 % 16),
        hexCharLower (t0 / 16),
        hexCharLower (t0 % 16),
        45,
        hexCharLower (m1 / 16),
        hexCharLower (m1 % 16),
        hexCharLower (m0 / 16),
        hexCharLower (m0 % 16),
        45,
        hexCharLower (v1 / 16),
        hexCharLower (v1 % 16),
        hexCharLower (v0 / 16),
        hexCharLower (v0 % 16),
        45,
        hexCharLower (a / 16),
        hexCharLower (a % 16),
        hexCharLower (c / 16),
        hexCharLower (c % 16),
        45,
        hexCharLower (n0 / 16),
        hexCharLower (n0 % 16),
        hexCharLower (n1 / 16),
        hexCharLower (n1 % 16),
        hexCharLower (n2 / 16),
        hexCharLower (n2 % 16),
        hexCharLower (n3 / 16),
        hexCharLower (n3 % 16),
        hexCharLower (n4 / 16),
        hexCharLower (n4 % 16),
        hexCharLower (n5 / 16),
        hexCharLower (n5 % 16)] 26 = .ok n1 :=
      parseHexByte_of_byte _ 26 n1
        (hexDigitValue_hexCharLower _ (by omega))
        (hexDigitValue_hexCharLower _ (by omega))
    have e12 : parseHexByte
        [hexCharLower (t3 / 16),
        hexCharLower (t3 % 16),
        hexCharLower (t2 / 16),
        hexCharLower (t2 % 16),
        hexCharLower (t1 / 16),
        hexCharLower (t1 % 16),
        hexCharLower (t0 / 16),
        hexCharLower (t0 % 16),
        45,
        hexCharLower (m1 / 16),
        hexCharLower (m1 % 16),
        hexCharLower (m0 / 16),
        hexCharLower (m0 % 16),
        45,
        hexCharLower (v1 / 16),
        hexCharLower (v1 % 16),
        hexCharLower (v0 / 16),
        hexCharLower (v0 % 16),
        45,
        hexCharLower (a / 16),
        hexCharLower (a % 16),
        hexCharLower (c / 16),
        hexCharLower (c % 16),
        45,
        hexCharLower (n0 / 16),
        hexCharLower (n0 % 16),
        hexCharLower (n1 / 16),
        hexCharLower (n1 % 16),
        hexCharLower (n2 / 16),
        hexCharLower (n2 % 16),
        hexCharLower (n3 / 16),
        hexCharLower (n3 % 16),
        hexCharLower (n4 / 16),
        hexCharLower (n4 % 16),
        hexCharLower (n5 / 16),
        hexCharLower (n5 % 16)] 28 = .ok n2 :=
      parseHexByte_of_byte _ 28 n2
        (hexDigitValue_hexCharLower _ (by omega))
        (hexDigitValue_hexCharLower _ (by omega))
    have e13 : parseHexByte
        [hexCharLower (t3 / 16),
        hexCharLower (t3 % 16),
        hexCharLower (t2 / 16),
        hexCharLower (t2 % 16),
        hexCharLower (t1 / 16),
        hexCharLower (t1 % 16),
        hexCharLower (t0 / 16),
        hexCharLower (t0 % 16),
        45,
        hexCharLower (m1 / 16),
        hexCharLower (m1 % 16),
        hexCharLower (m0 / 16),
        hexCharLower (m0 % 16),
        45,
        hexCharLower (v1 / 16),
        hexCharLower (v1 % 16),
        hexCharLower (v0 / 16),
        hexCharLower (v0 % 16),
        45,
        hexCharLower (a / 16),
        hexCharLower (a % 16),
        hexCharLower (c / 16),
        hexCharLower (c % 16),
        45,
        hexCharLower (n0 / 16),
        hexCharLower (n0 % 16),
        hexCharLower (n1 / 16),
        hexCharLower (n1 % 16),
        hexCharLower (n2 / 16),
        hexCharLower (n2 % 16),
        hexCharLower (n3 / 16),
        hexCharLower (n3 % 16),
        hexCharLower (n4 / 16),
        hexCharLower (n4 % 16),
        hexCharLower (n5 / 16),
        hexCharLower (n5 % 16)] 30 = .ok n3 :=
      parseHexByte_of_byte _ 30 n3
        (hexDigitValue_hexCharLower _ (by omega))
        (hexDigitValue_hexCharLower _ (by omega))
    have e14 : parseHexByte
        [hexCharLower (t3 / 16),
        hexCharLower (t3 % 16),
        hexCharLower (t2 / 16),
        hexCharLower (t2 % 16),
        hexCharLower (t1 / 16),
        hexCharLower (t1 % 16),
        hexCharLower (t0 / 16),
        hexCharLower (t0 % 16),
        45,
        hexCharLower (m1 / 16),
        hexCharLower (m1 % 16),
        hexCharLower (m0 / 16),
        hexCharLower (m0 % 16),
        45,
        hexCharLower (v1 / 16),
        hexCharLower (v1 % 16),
        hexCharLower (v0 / 16),
        hexCharLower (v0 % 16),
        45,
        hexCharLower (a / 16),
        hexCharLower (a % 16),
        hexCharLower (c / 16),
        hexCharLower (c % 16),
        45,
        hexCharLower (n0 / 16),
        hexCharLower (n0 % 16),
        hexCharLower (n1 / 16),
        hexCharLower (n1 % 16),
        hexCharLower (n2 / 16),
        hexCharLower (n2 % 16),
        hexCharLower (n3 / 16),
        hexCharLower (n3 % 16),
        hexCharLower (n4 / 16),
        hexCharLower (n4 % 16),
        hexCharLower (n5 / 16),
        hexCharLower (n5 % 16)] 32 = .ok n4 :=
      parseHexByte_of_byte _ 32 n4
        (hexDigitValue_hexCharLower _ (by omega))
        (hexDigitValue_hexCharLower _ (by omega))
    have e15 : parseHexByte
        [hexCharLower (t3 / 16),
        hexCharLower (t3 % 16),
        hexCharLower (t2 / 16),
        hexCharLower (t2 % 16),
        hexCharLower (t1 / 16),
        hexCharLower (t1 % 16),
        hexCharLower (t0 / 16),
        hexCharLower (t0 % 16),
        45,
        hexCharLower (m1 / 16),
        hexCharLower (m1 % 16),
        hexCharLower (m0 / 16),
        hexCharLower (m0 % 16),
        45,
        hexCharLower (v1 / 16),
        hexCharLower (v1 % 16),
        hexCharLower (v0 / 16),
        hexCharLower (v0 % 16),
        45,
        hexCharLower (a / 16),
        hexCharLower (a % 16),
        hexCharLower (c / 16),
        hexCharLower (c % 16),
        45,
        hexCharLower (n0 / 16),
        hexCharLower (n0 % 16),
        hexCharLower (n1 / 16),
        hexCharLower (n1 % 16),
        hexCharLower (n2 / 16),
        hexCharLower (n2 % 16),
        hexCharLower (n3 / 16),
        hexCharLower (n3 % 16),
        hexCharLower (n4 / 16),
        hexCharLower (n4 % 16),
        hexCharLower (n5 / 16),
        hexCharLower (n5 % 16)] 34 = .ok n5 :=
      parseHexByte_of_byte _ 34 n5
        (hexDigitValue_hexCharLower _ (by omega))
        (hexDigitValue_hexCharLower _ (by omega))
    rw [e0, e1, e2, e3, e4, e5, e6, e7, e8, e9, e10, e11, e12, e13, e14, e15]
    rfl
  · rw [hup]
    unfold Guid.try_parse
    rw [if_neg (fun hcon => hcon rfl), if_neg (fun hcon => hcon rfl),
      if_neg (fun hcon => hcon rfl), if_neg (fun hcon => hcon rfl),
      if_neg (fun hcon => hcon rfl)]
    have u0 : parseHexByte
        [asciiUpper (hexCharLower (t3 / 16)),
        asciiUpper (hexCharLower (t3 % 16)),
        asciiUpper (hexCharLower (t2 / 16)),
        asciiUpper (hexCharLower (t2 % 16)),
        asciiUpper (hexCharLower (t1 / 16)),
        asciiUpper (hexCharLower (t1 % 16)),
        asciiUpper (hexCharLower (t0 / 16)),
        asciiUpper (hexCharLower (t0 % 16)),
        45,
        asciiUpper (hexCharLower (m1 / 16)),
        asciiUpper (hexCharLower (m1 % 16)),
        asciiUpper (hexCharLower (m0 / 16)),
        asciiUpper (hexCharLower (m0 % 16)),
        45,
        asciiUpper (hexCharLower (v1 / 16)),
        asciiUpper (hexCharLower (v1 % 16)),
        asciiUpper (hexCharLower (v0 / 16)),
        asciiUpper (hexCharLower (v0 % 16)),
        45,
        asciiUpper (hexCharLower (a / 16)),
        asciiUpper (hexCharLower (a % 16)),
        asciiUpper (hexCharLower (c / 16)),
        asciiUpper (hexCharLower (c % 16)),
        45,
        asciiUpper (hexCharLower (n0 / 16)),
        asciiUpper (hexCharLower (n0 % 16)),
        asciiUpper (hexCharLower (n1 / 16)),
        asciiUpper (hexCharLower (n1 % 16)),
        asciiUpper (hexCharLower (n2 / 16)),
        asciiUpper (hexCharLower (n2 % 16)),
        asciiUpper (hexCharLower (n3 / 16)),
        asciiUpper (hexCharLower (n3 % 16)),
        asciiUpper (hexCharLower (n4 / 16)),
        asciiUpper (hexCharLower (n4 % 16)),
        asciiUpper (hexCharLower (n5 / 16)),
        asciiUpper (hexCharLower (n5 % 16))] 0 = .ok t3 :=
      parseHexByte_of_byte _ 0 t3
        (hexDigitValue_upper_hexCharLower _ (by omega))
        (hexDigitValue_upper_hexCharLower _ (by omega))
    have u1 : parseHexByte
        [asciiUpper (hexCharLower (t3 / 16)),
        asciiUpper (hexCharLower (t3 % 16)),
        asciiUpper (hexCharLower (t2 / 16)),
        asciiUpper (hexCharLower (t2 % 16)),
        asciiUpper (hexCharLower (t1 / 16)),
        asciiUpper (hexCharLower (t1 % 16)),
        asciiUpper (hexCharLower (t0 / 16)),
        asciiUpper (hexCharLower (t0 % 16)),
        45,
        asciiUpper (hexCharLower (m1 / 16)),
        asciiUpper (hexCharLower (m1 % 16)),
        asciiUpper (hexCharLower (m0 / 16)),
        asciiUpper (hexCharLower (m0 % 16)),
        45,
        asciiUpper (hexCharLower (v1 / 16)),
        asciiUpper (hexCharLower (v1 % 16)),
        asciiUpper (hexCharLower (v0 / 16)),
        asciiUpper (hexCharLower (v0 % 16)),
        45,
        asciiUpper (hexCharLower (a / 16)),
        asciiUpper (hexCharLower (a % 16)),
        asciiUpper (hexCharLower (c / 16)),
        asciiUpper (hexCharLower (c % 16)),
        45,
        asciiUpper (hexCharLower (n0 / 16)),
        asciiUpper (hexCharLower (n0 % 16)),
        asciiUpper (hexCharLower (n1 / 16)),
        asciiUpper (hexCharLower (n1 % 16)),
        asciiUpper (hexCharLower (n2 / 16)),
        asciiUpper (hexCharLower (n2 % 16)),
        asciiUpper (hexCharLower (n3 / 16)),
        asciiUpper (hexCharLower (n3 % 16)),
        asciiUpper (hexCharLower (n4 / 16)),
        asciiUpper (hexCharLower (n4 % 16)),
        asciiUpper (hexCharLower (n5 / 16)),
        asciiUpper (hexCharLower (n5 % 16))] 2 = .ok t2 :=
      parseHexByte_of_byte _ 2 t2
        (hexDigitValue_upper_hexCharLower _ (by omega))
        (hexDigitValue_upper_hexCharLower _ (by omega))
    have u2 : parseHexByte
        [asciiUpper (hexCharLower (t3 / 16)),
        asciiUpper (hexCharLower (t3 % 16)),
        asciiUpper (hexCharLower (t2 / 16)),
        asciiUpper (hexCharLower (t2 % 16)),
        asciiUpper (hexCharLower (t1 / 16)),
        asciiUpper (hexCharLower (t1 % 16)),
        asciiUpper (hexCharLower (t0 / 16)),
        asciiUpper (hexCharLower (t0 % 16)),
        45,
        asciiUpper (hexCharLower (m1 / 16)),
        asciiUpper (hexCharLower (m1 % 16)),
        asciiUpper (hexCharLower (m0 / 16)),
        asciiUpper (hexCharLower (m0 % 16)),
        45,
        asciiUpper (hexCharLower (v1 / 16)),
        asciiUpper (hexCharLower (v1 % 16)),
        asciiUpper (hexCharLower (v0 / 16)),
        asciiUpper (hexCharLower (v0 % 16)),
        45,
        asciiUpper (hexCharLower (a / 16)),
        asciiUpper (hexCharLower (a % 16)),
        asciiUpper (hexCharLower (c / 16)),
        asciiUpper (hexCharLower (c % 16)),
        45,
        asciiUpper (hexCharLower (n0 / 16)),
        asciiUpper (hexCharLower (n0 % 16)),
        asciiUpper (hexCharLower (n1 / 16)),
        asciiUpper (hexCharLower (n1 % 16)),
        asciiUpper (hexCharLower (n2 / 16)),
        asciiUpper (hexCharLower (n2 % 16)),
        asciiUpper (hexCharLower (n3 / 16)),
        asciiUpper (hexCharLower (n3 % 16)),
        asciiUpper (hexCharLower (n4 / 16)),
        asciiUpper (hexCharLower (n4 % 16)),
        asciiUpper (hexCharLower (n5 / 16)),
        asciiUpper (hexCharLower (n5 % 16))] 4 = .ok t1 :=
      parseHexByte_of_byte _ 4 t1
        (hexDigitValue_upper_hexCharLower _ (by omega))
        (hexDigitValue_upper_hexCharLower _ (by omega))
    have u3 : parseHexByte
        [asciiUpper (hexCharLower (t3 / 16)),
        asciiUpper (hexCharLower (t3 % 16)),
        asciiUpper (hexCharLower (t2 / 16)),
        asciiUpper (hexCharLower (t2 % 16)),
        asciiUpper (hexCharLower (t1 / 16)),
        asciiUpper (hexCharLower (t1 % 16)),
        asciiUpper (hexCharLower (t0 / 16)),
        asciiUpper (hexCharLower (t0 % 16)),
        45,
        asciiUpper (hexCharLower (m1 / 16)),
        asciiUpper (hexCharLower (m1 % 16)),
        asciiUpper (hexCharLower (m0 / 16)),
        asciiUpper (hexCharLower (m0 % 16)),
        45,
        asciiUpper (hexCharLower (v1 / 16)),
        asciiUpper (hexCharLower (v1 % 16)),
        asciiUpper (hexCharLower (v0 / 16)),
        asciiUpper (hexCharLower (v0 % 16)),
        45,
        asciiUpper (hexCharLower (a / 16)),
        asciiUpper (hexCharLower (a % 16)),
        asciiUpper (hexCharLower (c / 16)),
        asciiUpper (hexCharLower (c % 16)),
        45,
        asciiUpper (hexCharLower (n0 / 16)),
        asciiUpper (hexCharLower (n0 % 16)),
        asciiUpper (hexCharLower (n1 / 16)),
        asciiUpper (hexCharLower (n1 % 16)),
        asciiUpper (hexCharLower (n2 / 16)),
        asciiUpper (hexCharLower (n2 % 16)),
        asciiUpper (hexCharLower (n3 / 16)),
        asciiUpper (hexCharLower (n3 % 16)),
        asciiUpper (hexCharLower (n4 / 16)),
        asciiUpper (hexCharLower (n4 % 16)),
        asciiUpper (hexCharLower (n5 / 16)),
        asciiUpper (hexCharLower (n5 % 16))] 6 = .ok t0 :=
      parseHexByte_of_byte _ 6 t0
        (hexDigitValue_upper_hexCharLower _ (by omega))
        (hexDigitValue_upper_hexCharLower _ (by omega))
    have u4 : parseHexByte
        [asciiUpper (hexCharLower (t3 / 16)),
        asciiUpper (hexCharLower (t3 % 16)),
        asciiUpper (hexCharLower (t2 / 16)),
        asciiUpper (hexCharLower (t2 % 16)),
        asciiUpper (hexCharLower (t1 / 16)),
        asciiUpper (hexCharLower (t1 % 16)),
        asciiUpper (hexCharLower (t0 / 16)),
        asciiUpper (hexCharLower (t0 % 16)),
        45,
        asciiUpper (hexCharLower (m1 / 16)),
        asciiUpper (hexCharLower (m1 % 16)),
        asciiUpper (hexCharLower (m0 / 16)),
        asciiUpper (hexCharLower (m0 % 16)),
        45,
        asciiUpper (hexCharLower (v1 / 16)),
        asciiUpper (hexCharLower (v1 % 16)),
        asciiUpper (hexCharLower (v0 / 16)),
        asciiUpper (hexCharLower (v0 % 16)),
        45,
        asciiUpper (hexCharLower (a / 16)),
        asciiUpper (hexCharLower (a % 16)),
        asciiUpper (hexCharLower (c / 16)),
        asciiUpper (hexCharLower (c % 16)),
        45,
        asciiUpper (hexCharLower (n0 / 16)),
        asciiUpper (hexCharLower (n0 % 16)),
        asciiUpper (hexCharLower (n1 / 16)),
        asciiUpper (hexCharLower (n1 % 16)),
        asciiUpper (hexCharLower (n2 / 16)),
        asciiUpper (hexCharLower (n2 % 16)),
        asciiUpper (hexCharLower (n3 / 16)),
        asciiUpper (hexCharLower (n3 % 16)),
        asciiUpper (hexCharLower (n4 / 16)),
        asciiUpper (hexCharLower (n4 % 16)),
        asciiUpper (hexCharLower (n5 / 16)),
        asciiUpper (hexCharLower (n5 % 16))] 9 = .ok m1 :=
      parseHexByte_of_byte _ 9 m1
        (hexDigitValue_upper_hexCharLower _ (by omega))
        (hexDigitValue_upper_hexCharLower _ (by omega))
    have u5 : parseHexByte
        [asciiUpper (hexCharLower (t3 / 16)),
        asciiUpper (hexCharLower (t3 % 16)),
        asciiUpper (hexCharLower (t2 / 16)),
        asciiUpper (hexCharLower (t2 % 16)),
        asciiUpper (hexCharLower (t1 / 16)),
        asciiUpper (hexCharLower (t1 % 16)),
        asciiUpper (hexCharLower (t0 / 16)),
        asciiUpper (hexCharLower (t0 % 16)),
        45,
        asciiUpper (hexCharLower (m1 / 16)),
        asciiUpper (hexCharLower (m1 % 16)),
        asciiUpper (hexCharLower (m0 / 16)),
        asciiUpper (hexCharLower (m0 % 16)),
        45,
        asciiUpper (hexCharLower (v1 / 16)),
        asciiUpper (hexCharLower (v1 % 16)),
        asciiUpper (hexCharLower (v0 / 16)),
        asciiUpper (hexCharLower (v0 % 16)),
        45,
        asciiUpper (hexCharLower (a / 16)),
        asciiUpper (hexCharLower (a % 16)),
        asciiUpper (hexCharLower (c / 16)),
        asciiUpper (hexCharLower (c % 16)),
        45,
        asciiUpper (hexCharLower (n0 / 16)),
        asciiUpper (hexCharLower (n0 % 16)),
        asciiUpper (hexCharLower (n1 / 16)),
        asciiUpper (hexCharLower (n1 % 16)),
        asciiUpper (hexCharLower (n2 / 16)),
        asciiUpper (hexCharLower (n2 % 16)),
        asciiUpper (hexCharLower (n3 / 16)),
        asciiUpper (hexCharLower (n3 % 16)),
        asciiUpper (hexCharLower (n4 / 16)),
        asciiUpper (hexCharLower (n4 % 16)),
        asciiUpper (hexCharLower (n5 / 16)),
        asciiUpper (hexCharLower (n5 % 16))] 11 = .ok m0 :=
      parseHexByte_of_byte _ 11 m0
        (hexDigitValue_upper_hexCharLower _ (by omega))
        (hexDigitValue_upper_hexCharLower _ (by omega))
    have u6 : parseHexByte
        [asciiUpper (hexCharLower (t3 / 16)),
        asciiUpper (hexCharLower (t3 % 16)),
        asciiUpper (hexCharLower (t2 / 16)),
        asciiUpper (hexCharLower (t2 % 16)),
        asciiUpper (hexCharLower (t1 / 16)),
        asciiUpper (hexCharLower (t1 % 16)),
        asciiUpper (hexCharLower (t0 / 16)),
        asciiUpper (hexCharLower (t0 % 16)),
        45,
        asciiUpper (hexCharLower (m1 / 16)),
        asciiUpper (hexCharLower (m1 % 16)),
        asciiUpper (hexCharLower (m0 / 16)),
        asciiUpper (hexCharLower (m0 % 16)),
        45,
        asciiUpper (hexCharLower (v1 / 16)),
        asciiUpper (hexCharLower (v1 % 16)),
        asciiUpper (hexCharLower (v0 / 16)),
        asciiUpper (hexCharLower (v0 % 16)),
        45,
        asciiUpper (hexCharLower (a / 16)),
        asciiUpper (hexCharLower (a % 16)),
        asciiUpper (hexCharLower (c / 16)),
        asciiUpper (hexCharLower (c % 16)),
        45,
        asciiUpper (hexCharLower (n0 / 16)),
        asciiUpper (hexCharLower (n0 % 16)),
        asciiUpper (hexCharLower (n1 / 16)),
        asciiUpper (hexCharLower (n1 % 16)),
        asciiUpper (hexCharLower (n2 / 16)),
        asciiUpper (hexCharLower (n2 % 16)),
        asciiUpper (hexCharLower (n3 / 16)),
        asciiUpper (hexCharLower (n3 % 16)),
        asciiUpper (hexCharLower (n4 / 16)),
        asciiUpper (hexCharLower (n4 % 16)),
        asciiUpper (hexCharLower (n5 / 16)),
        asciiUpper (hexCharLower (n5 % 16))] 14 = .ok v1 :=
      parseHexByte_of_byte _ 14 v1
        (hexDigitValue_upper_hexCharLower _ (by omega))
        (hexDigitValue_upper_hexCharLower _ (by omega))
    have u7 : parseHexByte
        [asciiUpper (hexCharLower (t3 / 16)),
        asciiUpper (hexCharLower (t3 % 16)),
        asciiUpper (hexCharLower (t2 / 16)),
        asciiUpper (hexCharLower (t2 % 16)),
        asciiUpper (hexCharLower (t1 / 16)),
        asciiUpper (hexCharLower (t1 % 16)),
        asciiUpper (hexCharLower (t0 / 16)),
        asciiUpper (hexCharLower (t0 % 16)),
        45,
        asciiUpper (hexCharLower (m1 / 16)),
        asciiUpper (hexCharLower (m1 % 16)),
        asciiUpper (hexCharLower (m0 / 16)),
        asciiUpper (hexCharLower (m0 % 16)),
        45,
        asciiUpper (hexCharLower (v1 / 16)),
        asciiUpper (hexCharLower (v1 % 16)),
        asciiUpper (hexCharLower (v0 / 16)),
        asciiUpper (hexCharLower (v0 % 16)),
        45,
        asciiUpper (hexCharLower (a / 16)),
        asciiUpper (hexCharLower (a % 16)),
        asciiUpper (hexCharLower (c / 16)),
        asciiUpper (hexCharLower (c % 16)),
        45,
        asciiUpper (hexCharLower (n0 / 16)),
        asciiUpper (hexCharLower (n0 % 16)),
        asciiUpper (hexCharLower (n1 / 16)),
        asciiUpper (hexCharLower (n1 % 16)),
        asciiUpper (hexCharLower (n2 / 16)),
        asciiUpper (hexCharLower (n2 % 16)),
        asciiUpper (hexCharLower (n3 / 16)),
        asciiUpper (hexCharLower (n3 % 16)),
        asciiUpper (hexCharLower (n4 / 16)),
        asciiUpper (hexCharLower (n4 % 16)),
        asciiUpper (hexCharLower (n5 / 16)),
        asciiUpper (hexCharLower (n5 % 16))] 16 = .ok v0 :=
      parseHexByte_of_byte _ 16 v0
        (hexDigitValue_upper_hexCharLower _ (by omega))
        (hexDigitValue_upper_hexCharLower _ (by omega))
    have u8 : parseHexByte
        [asciiUpper (hexCharLower (t3 / 16)),
        asciiUpper (hexCharLower (t3 % 16)),
        asciiUpper (hexCharLower (t2 / 16)),
        asciiUpper (hexCharLower (t2 % 16)),
        asciiUpper (hexCharLower (t1 / 16)),
        asciiUpper (hexCharLower (t1 % 16)),
        asciiUpper (hexCharLower (t0 / 16)),
        asciiUpper (hexCharLower (t0 % 16)),
        45,
        asciiUpper (hexCharLower (m1 / 16)),
        asciiUpper (hexCharLower (m1 % 16)),
        asciiUpper (hexCharLower (m0 / 16)),
        asciiUpper (hexCharLower (m0 % 16)),
        45,
        asciiUpper (hexCharLower (v1 / 16)),
        asciiUpper (hexCharLower (v1 % 16)),
        asciiUpper (hexCharLower (v0 / 16)),
        asciiUpper (hexCharLower (v0 % 16)),
        45,
        asciiUpper (hexCharLower (a / 16)),
        asciiUpper (hexCharLower (a % 16)),
        asciiUpper (hexCharLower (c / 16)),
        asciiUpper (hexCharLower (c % 16)),
        45,
        asciiUpper (hexCharLower (n0 / 16)),
        asciiUpper (hexCharLower (n0 % 16)),
        asciiUpper (hexCharLower (n1 / 16)),
        asciiUpper (hexCharLower (n1 % 16)),
        asciiUpper (hexCharLower (n2 / 16)),
        asciiUpper (hexCharLower (n2 % 16)),
        asciiUpper (hexCharLower (n3 / 16)),
        asciiUpper (hexCharLower (n3 % 16)),
        asciiUpper (hexCharLower (n4 / 16)),
        asciiUpper (hexCharLower (n4 % 16)),
        asciiUpper (hexCharLower (n5 / 16)),
        asciiUpper (hexCharLower (n5 % 16))] 19 = .ok a :=
      parseHexByte_of_byte _ 19 a
        (hexDigitValue_upper_hexCharLower _ (by omega))
        (hexDigitValue_upper_hexCharLower _ (by omega))
    have u9 : parseHexByte
        [asciiUpper (hexCharLower (t3 / 16)),
        asciiUpper (hexCharLower (t3 % 16)),
        asciiUpper (hexCharLower (t2 / 16)),
        asciiUpper (hexCharLower (t2 % 16)),
        asciiUpper (hexCharLower (t1 / 16)),
        asciiUpper (hexCharLower (t1 % 16)),
        asciiUpper (hexCharLower (t0 / 16)),
        asciiUpper (hexCharLower (t0 % 16)),
        45,
        asciiUpper (hexCharLower (m1 / 16)),
        asciiUpper (hexCharLower (m1 % 16)),
        asciiUpper (hexCharLower (m0 / 16)),
        asciiUpper (hexCharLower (m0 % 16)),
        45,
        asciiUpper (hexCharLower (v1 / 16)),
        asciiUpper (hexCharLower (v1 % 16)),
        asciiUpper (hexCharLower (v0 / 16)),
        asciiUpper (hexCharLower (v0 % 16)),
        45,
        asciiUpper (hexCharLower (a / 16)),
        asciiUpper (hexCharLower (a % 16)),
        asciiUpper (hexCharLower (c / 16)),
        asciiUpper (hexCharLower (c % 16)),
        45,
        asciiUpper (hexCharLower (n0 / 16)),
        asciiUpper (hexCharLower (n0 % 16)),
        asciiUpper (hexCharLower (n1 / 16)),
        asciiUpper (hexCharLower (n1 % 16)),
        asciiUpper (hexCharLower (n2 / 16)),
        asciiUpper (hexCharLower (n2 % 16)),
        asciiUpper (hexCharLower (n3 / 16)),
        asciiUpper (hexCharLower (n3 % 16)),
        asciiUpper (hexCharLower (n4 / 16)),
        asciiUpper (hexCharLower (n4 % 16)),
        asciiUpper (hexCharLower (n5 / 16)),
        asciiUpper (hexCharLower (n5 % 16))] 21 = .ok c :=
      parseHexByte_of_byte _ 21 c
        (hexDigitValue_upper_hexCharLower _ (by omega))
        (hexDigitValue_upper_hexCharLower _ (by omega))
    have u10 : parseHexByte
        [asciiUpper (hexCharLower (t3 / 16)),
        asciiUpper (hexCharLower (t3 % 16)),
        asciiUpper (hexCharLower (t2 / 16)),
        asciiUpper (hexCharLower (t2 % 16)),
        asciiUpper (hexCharLower (t1 / 16)),
        asciiUpper (hexCharLower (t1 % 16)),
        asciiUpper (hexCharLower (t0 / 16)),
        asciiUpper (hexCharLower (t0 % 16)),
        45,
        asciiUpper (hexCharLower (m1 / 16)),
        asciiUpper (hexCharLower (m1 % 16)),
        asciiUpper (hexCharLower (m0 / 16)),
        asciiUpper (hexCharLower (m0 % 16)),
        45,
        asciiUpper (hexCharLower (v1 / 16)),
        asciiUpper (hexCharLower (v1 % 16)),
        asciiUpper (hexCharLower (v0 / 16)),
        asciiUpper (hexCharLower (v0 % 16)),
        45,
        asciiUpper (hexCharLower (a / 16)),
        asciiUpper (hexCharLower (a % 16)),
        asciiUpper (hexCharLower (c / 16)),
        asciiUpper (hexCharLower (c % 16)),
        45,
        asciiUpper (hexCharLower (n0 / 16)),
        asciiUpper (hexCharLower (n0 % 16)),
        asciiUpper (hexCharLower (n1 / 16)),
        asciiUpper (hexCharLower (n1 % 16)),
        asciiUpper (hexCharLower (n2 / 16)),
        asciiUpper (hexCharLower (n2 % 16)),
        asciiUpper (hexCharLower (n3 / 16)),
        asciiUpper (hexCharLower (n3 % 16)),
        asciiUpper (hexCharLower (n4 / 16)),
        asciiUpper (hexCharLower (n4 % 16)),
        asciiUpper (hexCharLower (n5 / 16)),
        asciiUpper (hexCharLower (n5 % 16))] 24 = .ok n0 :=
      parseHexByte_of_byte _ 24 n0
        (hexDigitValue_upper_hexCharLower _ (by omega))
        (hexDigitValue_upper_hexCharLower _ (by omega))
    have u11 : parseHexByte
        [asciiUpper (hexCharLower (t3 / 16)),
        asciiUpper (hexCharLower (t3 % 16)),
        asciiUpper (hexCharLower (t2 / 16)),
        asciiUpper (hexCharLower (t2 % 16)),
        asciiUpper (hexCharLower (t1 / 16)),
        asciiUpper (hexCharLower (t1 % 16)),
        asciiUpper (hexCharLower (t0 / 16)),
        asciiUpper (hexCharLower (t0 % 16)),
        45,
        asciiUpper (hexCharLower (m1 / 16)),
        asciiUpper (hexCharLower (m1 % 16)),
        asciiUpper (hexCharLower (m0 / 16)),
        asciiUpper (hexCharLower (m0 % 16)),
        45,
        asciiUpper (hexCharLower (v1 / 16)),
        asciiUpper (hexCharLower (v1 % 16)),
        asciiUpper (hexCharLower (v0 / 16)),
        asciiUpper (hexCharLower (v0 % 16)),
        45,
        asciiUpper (hexCharLower (a / 16)),
        asciiUpper (hexCharLower (a % 16)),
        asciiUpper (hexCharLower (c / 16)),
        asciiUpper (hexCharLower (c % 16)),
        45,
        asciiUpper (hexCharLower (n0 / 16)),
        asciiUpper (hexCharLower (n0 % 16)),
        asciiUpper (hexCharLower (n1 / 16)),
        asciiUpper (hexCharLower (n1 % 16)),
        asciiUpper (hexCharLower (n2 / 16)),
        asciiUpper (hexCharLower (n2 % 16)),
        asciiUpper (hexCharLower (n3 / 16)),
        asciiUpper (hexCharLower (n3 % 16)),
        asciiUpper (hexCharLower (n4 / 16)),
        asciiUpper (hexCharLower (n4 % 16)),
        asciiUpper (hexCharLower (n5 / 16)),
        asciiUpper (hexCharLower (n5 % 16))] 26 = .ok n1 :=
      parseHexByte_of_byte _ 26 n1
        (hexDigitValue_upper_hexCharLower _ (by omega))
        (hexDigitValue_upper_hexCharLower _ (by omega))
    have u12 : parseHexByte
        [asciiUpper (hexCharLower (t3 / 16)),
        asciiUpper (hexCharLower (t3 % 16)),
        asciiUpper (hexCharLower (t2 / 16)),
        asciiUpper (hexCharLower (t2 % 16)),
        asciiUpper (hexCharLower (t1 / 16)),
        asciiUpper (hexCharLower (t1 % 16)),
        asciiUpper (hexCharLower (t0 / 16)),
        asciiUpper (hexCharLower (t0 % 16)),
        45,
        asciiUpper (hexCharLower (m1 / 16)),
        asciiUpper (hexCharLower (m1 % 16)),
        asciiUpper (hexCharLower (m0 / 16)),
        asciiUpper (hexCharLower (m0 % 16)),
        45,
        asciiUpper (hexCharLower (v1 / 16)),
        asciiUpper (hexCharLower (v1 % 16)),
        asciiUpper (hexCharLower (v0 / 16)),
        asciiUpper (hexCharLower (v0 % 16)),
        45,
        asciiUpper (hexCharLower (a / 16)),
        asciiUpper (hexCharLower (a % 16)),
        asciiUpper (hexCharLower (c / 16)),
        asciiUpper (hexCharLower (c % 16)),
        45,
        asciiUpper (hexCharLower (n0 / 16)),
        asciiUpper (hexCharLower (n0 % 16)),
        asciiUpper (hexCharLower (n1 / 16)),
        asciiUpper (hexCharLower (n1 % 16)),
        asciiUpper (hexCharLower (n2 / 16)),
        asciiUpper (hexCharLower (n2 % 16)),
        asciiUpper (hexCharLower (n3 / 16)),
        asciiUpper (hexCharLower (n3 % 16)),
        asciiUpper (hexCharLower (n4 / 16)),
        asciiUpper (hexCharLower (n4 % 16)),
        asciiUpper (hexCharLower (n5 / 16)),
        asciiUpper (hexCharLower (n5 % 16))] 28 = .ok n2 :=
      parseHexByte_of_byte _ 28 n2
        (hexDigitValue_upper_hexCharLower _ (by omega))
        (hexDigitValue_upper_hexCharLower _ (by omega))
    have u13 : parseHexByte
        [asciiUpper (hexCharLower (t3 / 16)),
        asciiUpper (hexCharLower (t3 % 16)),
        asciiUpper (hexCharLower (t2 / 16)),
        asciiUpper (hexCharLower (t2 % 16)),
        asciiUpper (hexCharLower (t1 / 16)),
        asciiUpper (hexCharLower (t1 % 16)),
        asciiUpper (hexCharLower (t0 / 16)),
        asciiUpper (hexCharLower (t0 % 16)),
        45,
        asciiUpper (hexCharLower (m1 / 16)),
        asciiUpper (hexCharLower (m1 % 16)),
        asciiUpper (hexCharLower (m0 / 16)),
        asciiUpper (hexCharLower (m0 % 16)),
        45,
        asciiUpper (hexCharLower (v1 / 16)),
        asciiUpper (hexCharLower (v1 % 16)),
        asciiUpper (hexCharLower (v0 / 16)),
        asciiUpper (hexCharLower (v0 % 16)),
        45,
        asciiUpper (hexCharLower (a / 16)),
        asciiUpper (hexCharLower (a % 16)),
        asciiUpper (hexCharLower (c / 16)),
        asciiUpper (hexCharLower (c % 16)),
        45,
        asciiUpper (hexCharLower (n0 / 16)),
        asciiUpper (hexCharLower (n0 % 16)),
        asciiUpper (hexCharLower (n1 / 16)),
        asciiUpper (hexCharLower (n1 % 16)),
        asciiUpper (hexCharLower (n2 / 16)),
        asciiUpper (hexCharLower (n2 % 16)),
        asciiUpper (hexCharLower (n3 / 16)),
        asciiUpper (hexCharLower (n3 % 16)),
        asciiUpper (hexCharLower (n4 / 16)),
        asciiUpper (hexCharLower (n4 % 16)),
        asciiUpper (hexCharLower (n5 / 16)),
        asciiUpper (hexCharLower (n5 % 16))] 30 = .ok n3 :=
      parseHexByte_of_byte _ 30 n3
        (hexDigitValue_upper_hexCharLower _ (by omega))
        (hexDigitValue_upper_hexCharLower _ (by omega))
    have u14 : parseHexByte
        [asciiUpper (hexCharLower (t3 / 16)),
        asciiUpper (hexCharLower (t3 % 16)),
        asciiUpper (hexCharLower (t2 / 16)),
        asciiUpper (hexCharLower (t2 % 16)),
        asciiUpper (hexCharLower (t1 / 16)),
        asciiUpper (hexCharLower (t1 % 16)),
        asciiUpper (hexCharLower (t0 / 16)),
        asciiUpper (hexCharLower (t0 % 16)),
        45,
        asciiUpper (hexCharLower (m1 / 16)),
        asciiUpper (hexCharLower (m1 % 16)),
        asciiUpper (hexCharLower (m0 / 16)),
        asciiUpper (hexCharLower (m0 % 16)),
        45,
        asciiUpper (hexCharLower (v1 / 16)),
        asciiUpper (hexCharLower (v1 % 16)),
        asciiUpper (hexCharLower (v0 / 16)),
        asciiUpper (hexCharLower (v0 % 16)),
        45,
        asciiUpper (hexCharLower (a / 16)),
        asciiUpper (hexCharLower (a % 16)),
        asciiUpper (hexCharLower (c / 16)),
        asciiUpper (hexCharLower (c % 16)),
        45,
        asciiUpper (hexCharLower (n0 / 16)),
        asciiUpper (hexCharLower (n0 % 16)),
        asciiUpper (hexCharLower (n1 / 16)),
        asciiUpper (hexCharLower (n1 % 16)),
        asciiUpper (hexCharLower (n2 / 16)),
        asciiUpper (hexCharLower (n2 % 16)),
        asciiUpper (hexCharLower (n3 / 16)),
        asciiUpper (hexCharLower (n3 % 16)),
        asciiUpper (hexCharLower (n4 / 16)),
        asciiUpper (hexCharLower (n4 % 16)),
        asciiUpper (hexCharLower (n5 / 16)),
        asciiUpper (hexCharLower (n5 % 16))] 32 = .ok n4 :=
      parseHexByte_of_byte _ 32 n4
        (hexDigitValue_upper_hexCharLower _ (by omega))
        (hexDigitValue_upper_hexCharLower _ (by omega))
    have u15 : parseHexByte
        [asciiUpper (hexCharLower (t3 / 16)),
        asciiUpper (hexCharLower (t3 % 16)),
        asciiUpper (hexCharLower (t2 / 16)),
        asciiUpper (hexCharLower (t2 % 16)),
        asciiUpper (hexCharLower (t1 / 16)),
        asciiUpper (hexCharLower (t1 % 16)),
        asciiUpper (hexCharLower (t0 / 16)),
        asciiUpper (hexCharLower (t0 % 16)),
        45,
        asciiUpper (hexCharLower (m1 / 16)),
        asciiUpper (hexCharLower (m1 % 16)),
        asciiUpper (hexCharLower (m0 / 16)),
        asciiUpper (hexCharLower (m0 % 16)),
        45,
        asciiUpper (hexCharLower (v1 / 16)),
        asciiUpper (hexCharLower (v1 % 16)),
        asciiUpper (hexCharLower (v0 / 16)),
        asciiUpper (hexCharLower (v0 % 16)),
        45,
        asciiUpper (hexCharLower (a / 16)),
        asciiUpper (hexCharLower (a % 16)),
        asciiUpper (hexCharLower (c / 16)),
        asciiUpper (hexCharLower (c % 16)),
        45,
        asciiUpper (hexCharLower (n0 / 16)),
        asciiUpper (hexCharLower (n0 % 16)),
        asciiUpper (hexCharLower (n1 / 16)),
        asciiUpper (hexCharLower (n1 % 16)),
        asciiUpper (hexCharLower (n2 / 16)),
        asciiUpper (hexCharLower (n2 % 16)),
        asciiUpper (hexCharLower (n3 / 16)),
        asciiUpper (hexCharLower (n3 % 16)),
        asciiUpper (hexCharLower (n4 / 16)),
        asciiUpper (hexCharLower (n4 % 16)),
        asciiUpper (hexCharLower (n5 / 16)),
        asciiUpper (hexCharLower (n5 % 16))] 34 = .ok n5 :=
      parseHexByte_of_byte _ 34 n5
        (hexDigitValue_upper_hexCharLower _ (by omega))
        (hexDigitValue_upper_hexCharLower _ (by omega))
    rw [u0, u1, u2, u3, u4, u5, u6, u7, u8, u9, u10, u11, u12, u13, u14, u15]
    rfl

/-- Concrete instantiation of `guid_format_parse_roundtrip` at the GUID
of `test_guid`. -/
theorem guid_format_parse_roundtrip_witness :
    (Guid.new [0x67, 0x45, 0x23, 0x01] [0xab, 0x89] [0xef, 0xcd] 0x01 0x23
        [0x45, 0x67, 0x89, 0xab, 0xcd, 0xef]).wf ∧
    Guid.try_parse (Guid.new [0x67, 0x45, 0x23, 0x01] [0xab, 0x89] [0xef, 0xcd]
        0x01 0x23 [0x45, 0x67, 0x89, 0xab, 0xcd, 0xef]).to_ascii_hex_lower =
      .ok (Guid.new [0x67, 0x45, 0x23, 0x01] [0xab, 0x89] [0xef, 0xcd] 0x01
        0x23 [0x45, 0x67, 0x89, 0xab, 0xcd, 0xef]) :=
  ⟨by decide,
   (guid_format_parse_roundtrip (Guid.new [0x67, 0x45, 0x23, 0x01] [0xab, 0x89]
      [0xef, 0xcd] 0x01 0x23 [0x45, 0x67, 0x89, 0xab, 0xcd, 0xef])
      (by decide)).2.2.2.2.2.2.1⟩


/-! ## CRC32

Modelled from the spec: the CRC32 checksum primitive (§1 treats it as an
external function) — the standard reflected CRC-32 with polynomial
`0xEDB88320`, initial value and final xor `0xFFFFFFFF`, as produced by
the reference disk image's generator.
-/

/-- One bit step of the reflected CRC-32. -/
def crc32Bit (x : Nat) : Nat :=
  if x % 2 = 1 then x / 2 ^^^ 0xEDB88320 else x / 2

/-- One byte folded into the running CRC-32 state. -/
def crc32Round (c b : Nat) : Nat :=
  crc32Bit (crc32Bit (crc32Bit (crc32Bit
    (crc32Bit (crc32Bit (crc32Bit (crc32Bit (c ^^^ b % 256))))))))

/-- CRC-32 of a byte string. -/
def crc32 (data : List Nat) : Nat :=
  0xFFFFFFFF ^^^ data.foldl crc32Round 0xFFFFFFFF

/-- Zero-padded slice: `len` bytes of `l` starting at `off`, missing
positions read as zero. -/
def sliceD (l : List Nat) (off len : Nat) : List Nat :=
  (List.range len).map fun i => l.getD (off + i) 0

/-! ## GPT data structures

Modelled from the spec: the `gpt_disk_types` crate is not under `src/`;
the header and partition-entry records and their byte layout follow the
spec's data model (§3) and on-disk layout (§6), with the standard GPT
field offsets used by the reference disk image of `test_disk.rs`.
-/

/-- Errors of the disk controller (the model folds the error taxonomy of
spec §7 into one type). -/
inductive DiskError where
  | OutOfBounds
  | NotBlockSizeMultiple
  | BufferTooSmall
  | InvalidHeader
  | InvalidLayout
deriving DecidableEq, Repr

/-- The 8-byte "EFI PART" signature. -/
def efiSignature : List Nat := [69, 70, 73, 32, 80, 65, 82, 84]

/-- Derived layout of a partition entry array: starting LBA, size of one
entry, number of entries (spec §3, §4.3). -/
structure GptPartitionEntryArrayLayout where
  start_lba : Nat
  entry_size : Nat
  num_entries : Nat
deriving DecidableEq, Repr

/-- Logical byte length of the array: entry count × entry size. -/
def GptPartitionEntryArrayLayout.num_bytes_exact
    (l : GptPartitionEntryArrayLayout) : Nat :=
  l.entry_size * l.num_entries

/-- Number of whole blocks spanned by the array. -/
def GptPartitionEntryArrayLayout.num_blocks
    (l : GptPartitionEntryArrayLayout) (bs : Nat) : Nat :=
  (l.num_bytes_exact + bs - 1) / bs

/-- Logical length rounded up to the next multiple of the block size. -/
def GptPartitionEntryArrayLayout.num_bytes_rounded
    (l : GptPartitionEntryArrayLayout) (bs : Nat) : Nat :=
  l.num_blocks bs * bs

/-- The GPT header record (spec §3). -/
structure GptHeader where
  signature : List Nat
  revision : Nat
  header_size : Nat
  header_crc32 : Nat
  my_lba : Nat
  alternate_lba : Nat
  first_usable_lba : Nat
  last_usable_lba : Nat
  disk_guid : Guid
  partition_entry_lba : Nat
  number_of_partition_entries : Nat
  size_of_partition_entry : Nat
  partition_entry_array_crc32 : Nat
deriving DecidableEq, Repr

/-- Serialization of a GPT header into its 92-byte image (standard GPT
field offsets; the 4 reserved bytes at offset 20 are zero). -/
def GptHeader.encode (h : GptHeader) : List Nat :=
  h.signature ++ natToLe 4 h.revision ++ natToLe 4 h.header_size ++
  natToLe 4 h.header_crc32 ++ natToLe 4 0 ++ natToLe 8 h.my_lba ++
  natToLe 8 h.alternate_lba ++ natToLe 8 h.first_usable_lba ++
  natToLe 8 h.last_usable_lba ++ h.disk_guid.to_bytes ++
  natToLe 8 h.partition_entry_lba ++ natToLe 4 h.number_of_partition_entries ++
  natToLe 4 h.size_of_partition_entry ++ natToLe 4 h.partition_entry_array_crc32

/-- The header checksum recomputed on write (spec §4.4): CRC-32 over the
header's declared `header_size` bytes of its serialization with the
checksum field itself zeroed. -/
def GptHeader.compute_crc32 (h : GptHeader) : Nat :=
  crc32 (sliceD (GptHeader.encode { h with header_crc32 := 0 }) 0 h.header_size)

/-- The block image written for a header: the serialization with the
recomputed checksum patched in, zero-padded to one block. -/
def GptHeader.encode_block (h : GptHeader) (bs : Nat) : List Nat :=
  sliceD (GptHeader.encode { h with header_crc32 := h.compute_crc32 }) 0 bs

/-- Decoding of a GPT header from one block (spec §4.4): fails on
signature mismatch or declared header size exceeding the block; the
stored checksum is not verified. -/
def decodeGptHeaderBlock (block : List Nat) : Except DiskError GptHeader :=
  if sliceD block 0 8 ≠ efiSignature then .error .InvalidHeader
  else if block.length < leToNat (sliceD block 12 4) then .error .InvalidHeader
  else .ok
    { signature := sliceD block 0 8
      revision := leToNat (sliceD block 8 4)
      header_size := leToNat (sliceD block 12 4)
      header_crc32 := leToNat (sliceD block 16 4)
      my_lba := leToNat (sliceD block 24 8)
      alternate_lba := leToNat (sliceD block 32 8)
      first_usable_lba := leToNat (sliceD block 40 8)
      last_usable_lba := leToNat (sliceD block 48 8)
      disk_guid := Guid.from_bytes (sliceD block 56 16)
      partition_entry_lba := leToNat (sliceD block 72 8)
      number_of_partition_entries := leToNat (sliceD block 80 4)
      size_of_partition_entry := leToNat (sliceD block 84 4)
      partition_entry_array_crc32 := leToNat (sliceD block 88 4) }

/-- The layout of the header's partition entry array, read off the
header's fields (spec §4.3: the caller supplies whichever header's
fields apply). -/
def GptHeader.get_partition_entry_array_layout
    (h : GptHeader) : GptPartitionEntryArrayLayout :=
  ⟨h.partition_entry_lba, h.size_of_partition_entry,
   h.number_of_partition_entries⟩

/-- The partition entry record (spec §3): type GUID, unique GUID,
starting and ending LBA, attribute bits, 36 UCS-2 name units. -/
structure GptPartitionEntry where
  partition_type_guid : Guid
  unique_partition_guid : Guid
  starting_lba : Nat
  ending_lba : Nat
  attributes : Nat
  name : List Nat
deriving DecidableEq, Repr

/-- Used/unused is determined solely by the type GUID being all-zero
(spec §3). -/
def GptPartitionEntry.is_used (e : GptPartitionEntry) : Bool :=
  !e.partition_type_guid.is_zero

/-- UCS-2 code units to little-endian byte pairs. -/
def encodeU16s (l : List Nat) : List Nat := (l.map (natToLe 2)).flatten

/-- Little-endian byte pairs back to UCS-2 code units. -/
def decodeU16s : List Nat → List Nat
  | a :: b :: rest => (a + 256 * b) :: decodeU16s rest
  | _ => []

/-- Serialization of a partition entry into its 128-byte image. -/
def GptPartitionEntry.encode (e : GptPartitionEntry) : List Nat :=
  e.partition_type_guid.to_bytes ++ e.unique_partition_guid.to_bytes ++
  natToLe 8 e.starting_lba ++ natToLe 8 e.ending_lba ++
  natToLe 8 e.attributes ++ encodeU16s e.name

/-- Decoding of a partition entry from its 128-byte image. -/
def GptPartitionEntry.decode (bytes : List Nat) : GptPartitionEntry :=
  { partition_type_guid := Guid.from_bytes (sliceD bytes 0 16)
    unique_partition_guid := Guid.from_bytes (sliceD bytes 16 16)
    starting_lba := leToNat (sliceD bytes 32 8)
    ending_lba := leToNat (sliceD bytes 40 8)
    attributes := leToNat (sliceD bytes 48 8)
    name := decodeU16s (sliceD bytes 56 72) }

/-! ## The block medium and disk controller

Modelled from the spec: `gpt_disk_io`'s `Disk`, `BlockIo` and the slice
backends are not under `src/` (only the crate root and tests are); the
model represents the medium as a byte-address function plus block size
and block count, and the controller operations per spec §4.1–§4.4.
-/

/-- A block storage medium: the byte at each address, the block size and
the number of blocks. -/
structure DiskState where
  bytes : Nat → Nat
  block_size : Nat
  num_blocks : Nat

/-- Overwrite the byte range starting at `off` with `data`. -/
def writeRange (f : Nat → Nat) (off : Nat) (data : List Nat) : Nat → Nat :=
  fun addr =>
    if off ≤ addr ∧ addr < off + data.length then data.getD (addr - off) 0
    else f addr

/-- Read `len` bytes starting at byte address `off`. -/
def readRange (f : Nat → Nat) (off len : Nat) : List Nat :=
  (List.range len).map fun i => f (off + i)

/-- Modelled from the spec (§4.1): `read_blocks` fails out of bounds,
otherwise returns the bytes of the requested blocks in order. -/
def DiskState.read_blocks (d : DiskState) (lba nb : Nat) :
    Except DiskError (List Nat) :=
  if lba + nb ≤ d.num_blocks then
    .ok (readRange d.bytes (lba * d.block_size) (nb * d.block_size))
  else .error .OutOfBounds

/-- Modelled from the spec (§4.1): `write_blocks` fails when the buffer
is not a positive multiple of the block size or the span exceeds the
medium, otherwise overwrites the addressed blocks. -/
def DiskState.write_blocks (d : DiskState) (lba : Nat) (data : List Nat) :
    Except DiskError DiskState :=
  if data.length = 0 ∨ data.length % d.block_size ≠ 0 then
    .error .NotBlockSizeMultiple
  else if lba + data.length / d.block_size ≤ d.num_blocks then
    .ok { d with bytes := writeRange d.bytes (lba * d.block_size) data }
  else .error .OutOfBounds

/-- Modelled from the spec (§4.4): flush delegates to the capability; in
the memory-backed model it is the identity. -/
def DiskState.flush (d : DiskState) : Except DiskError DiskState := .ok d

/-- Legacy CHS encoding of an LBA with the conventional 255-head,
63-sector geometry, saturated when out of range. -/
def chsBytes (lba : Nat) : List Nat :=
  let cylinder := lba / (255 * 63)
  let head := lba / 63 % 255
  let sector := lba % 63 + 1
  if cylinder > 1023 then [255, 255, 255]
  else [head, sector + cylinder / 256 * 64, cylinder % 256]

/-- Modelled from the spec (§4.4, §6): the protective MBR block is
zero-filled except the boot signature `0x55AA` in the last two bytes and
one partition record of the GPT-protective type (`0xEE`) at offset 446
spanning LBA 1 to the last LBA. -/
def protectiveMbrBlock (bs nb : Nat) : List Nat :=
  List.replicate 446 0 ++
  ([0] ++ chsBytes 1 ++ [238] ++ chsBytes (nb - 1) ++ natToLe 4 1 ++
    natToLe 4 (min (nb - 1) 4294967295)) ++
  List.replicate (bs - 464) 0 ++ [85, 170]

/-- Modelled from the spec (§4.4): build the protective MBR and write it
to LBA 0. -/
def DiskState.write_protective_mbr (d : DiskState) : Except DiskError DiskState :=
  d.write_blocks 0 (protectiveMbrBlock d.block_size d.num_blocks)

/-- Modelled from the spec (§4.4): serialize the header with its
recomputed checksum and write the block to `header.my_lba`. -/
def DiskState.write_gpt_header (d : DiskState) (h : GptHeader) :
    Except DiskError DiskState :=
  d.write_blocks h.my_lba (h.encode_block d.block_size)

/-- Modelled from the spec (§4.4): the primary write places the header
at `header.my_lba` (the position is not independently validated). -/
def DiskState.write_primary_gpt_header (d : DiskState) (h : GptHeader) :
    Except DiskError DiskState :=
  d.write_gpt_header h

/-- Modelled from the spec (§4.4): identical to the primary write — the
caller is responsible for consistent `my_lba`/`alternate_lba` fields. -/
def DiskState.write_secondary_gpt_header (d : DiskState) (h : GptHeader) :
    Except DiskError DiskState :=
  d.write_gpt_header h

/-- Modelled from the spec (§4.4): read one block from the fixed primary
LBA 1 and decode the header. -/
def DiskState.read_primary_gpt_header (d : DiskState) :
    Except DiskError GptHeader :=
  (d.read_blocks 1 1).bind decodeGptHeaderBlock

/-- Modelled from the spec (§4.4): read one block from the last LBA
(`num_blocks − 1`) and decode the header. -/
def DiskState.read_secondary_gpt_header (d : DiskState) :
    Except DiskError GptHeader :=
  (d.read_blocks (d.num_blocks - 1) 1).bind decodeGptHeaderBlock

/-- An in-memory partition entry array: its layout plus the
block-rounded backing bytes. -/
structure GptPartitionEntryArray where
  layout : GptPartitionEntryArrayLayout
  storage : List Nat
deriving DecidableEq, Repr

/-- A fresh zero-filled array for a layout (the tests allocate a zeroed
buffer of the rounded length). -/
def GptPartitionEntryArray.new (layout : GptPartitionEntryArrayLayout)
    (bs : Nat) : GptPartitionEntryArray :=
  ⟨layout, List.replicate (layout.num_bytes_rounded bs) 0⟩

/-- Overwrite bytes of `l` starting at `off` with `data` (the model of
copying a slice into a subrange of the backing storage; the length never
changes). -/
def overwriteAt (l : List Nat) (off : Nat) (data : List Nat) : List Nat :=
  (List.range l.length).map fun p =>
    if off ≤ p ∧ p < off + data.length then data.getD (p - off) 0 else l.getD p 0

/-- Store an entry's 128-byte image into slot `i` (byte offset
`i × entry_size`). -/
def GptPartitionEntryArray.set_partition_entry (arr : GptPartitionEntryArray)
    (i : Nat) (e : GptPartitionEntry) : GptPartitionEntryArray :=
  { arr with storage := overwriteAt arr.storage (i * arr.layout.entry_size) e.encode }

/-- Decode the entry in slot `i`; `none` past the logical entry count. -/
def GptPartitionEntryArray.get_partition_entry (arr : GptPartitionEntryArray)
    (i : Nat) : Option GptPartitionEntry :=
  if i < arr.layout.num_entries then
    some (GptPartitionEntry.decode
      (sliceD arr.storage (i * arr.layout.entry_size) 128))
  else none

/-- Re-target the array at another starting LBA (used for the secondary
array). -/
def GptPartitionEntryArray.set_start_lba (arr : GptPartitionEntryArray)
    (lba : Nat) : GptPartitionEntryArray :=
  { arr with layout := { arr.layout with start_lba := lba } }

/-- Modelled from the spec (§4.4): write the view's backing bytes to its
starting LBA in one multi-block write. -/
def DiskState.write_gpt_partition_entry_array (d : DiskState)
    (arr : GptPartitionEntryArray) : Except DiskError DiskState :=
  d.write_blocks arr.layout.start_lba arr.storage

/-- Modelled from the spec (§4.4): read the spanned blocks starting at
the layout's LBA and return the borrowed view. -/
def DiskState.read_gpt_partition_entry_array (d : DiskState)
    (layout : GptPartitionEntryArrayLayout) :
    Except DiskError GptPartitionEntryArray :=
  (d.read_blocks layout.start_lba (layout.num_blocks d.block_size)).map
    fun bytes => ⟨layout, bytes⟩

/-! ## The partition entry iterator (spec §4.5) -/

/-- Iterator state: the layout, the current logical entry index, and the
buffered block (its index within the array and its bytes), per the spec
design note (§9). -/
structure GptPartitionEntryIter where
  layout : GptPartitionEntryArrayLayout
  entry_index : Nat
  buffered : Option (Nat × List Nat)
deriving Repr

/-- Modelled from the spec (§4.5): construction validates that one entry
fits in a block; iteration starts at entry 0 with nothing buffered. -/
def DiskState.gpt_partition_entry_array_iter (d : DiskState)
    (layout : GptPartitionEntryArrayLayout) :
    Except DiskError GptPartitionEntryIter :=
  if layout.entry_size = 0 ∨ d.block_size < layout.entry_size then
    .error .InvalidLayout
  else .ok ⟨layout, 0, none⟩

/-- Modelled from the spec (§4.5): one advance of the iterator — `none`
once the index reaches the entry count; otherwise the block group
holding the entry is read (one block read) unless already buffered, and
the entry is decoded from the buffer; a failed read is yielded as
`some (error)`. -/
def iterNext (d : DiskState) (st : GptPartitionEntryIter) :
    Option (Except DiskError GptPartitionEntry) × GptPartitionEntryIter :=
  if st.entry_index < st.layout.num_entries then
    let epb := d.block_size / st.layout.entry_size
    let blk := st.entry_index / epb
    let fetched : Except DiskError (List Nat) :=
      match st.buffered with
      | some bd =>
        if bd.fst = blk then .ok bd.snd
        else d.read_blocks (st.layout.start_lba + blk) 1
      | none => d.read_blocks (st.layout.start_lba + blk) 1
    match fetched with
    | .error e => (some (.error e), { st with entry_index := st.entry_index + 1 })
    | .ok data =>
      (some (.ok (GptPartitionEntry.decode
         (sliceD data (st.entry_index % epb * st.layout.entry_size) 128))),
       { st with entry_index := st.entry_index + 1, buffered := some (blk, data) })
  else (none, st)

/-- Run the iterator with the given fuel, collecting yielded items until
it signals completion. -/
def iterRunAux (d : DiskState) :
    Nat → GptPartitionEntryIter → List (Except DiskError GptPartitionEntry)
  | 0, _ => []
  | fuel + 1, st =>
    match iterNext d st with
    | (none, _) => []
    | (some r, st2) => r :: iterRunAux d fuel st2

/-- The full run of the iterator from its current state. -/
def iterRun (d : DiskState) (st : GptPartitionEntryIter) :
    List (Except DiskError GptPartitionEntry) :=
  iterRunAux d (st.layout.num_entries - st.entry_index) st

/-! ## Basic lemmas about slices and ranges -/

theorem sliceD_length (l : List Nat) (off len : Nat) :
    (sliceD l off len).length = len := by
  simp [sliceD]

theorem getD_sliceD (l : List Nat) (off len k : Nat) (h : k < len) :
    (sliceD l off len).getD k 0 = l.getD (off + k) 0 := by
  unfold sliceD
  rw [List.getD_eq_getElem _ _ (by simpa using h)]
  simp

theorem readRange_length (f : Nat → Nat) (off len : Nat) :
    (readRange f off len).length = len := by
  simp [readRange]

theorem getD_readRange (f : Nat → Nat) (off len k : Nat) (h : k < len) :
    (readRange f off len).getD k 0 = f (off + k) := by
  unfold readRange
  rw [List.getD_eq_getElem _ _ (by simpa using h)]
  simp

theorem list_ext_getD (l1 l2 : List Nat) (hlen : l1.length = l2.length)
    (h : ∀ k, k < l1.length → l1.getD k 0 = l2.getD k 0) : l1 = l2 := by
  apply List.ext_getElem hlen
  intro i h1 h2
  have := h i h1
  rwa [List.getD_eq_getElem _ _ h1, List.getD_eq_getElem _ _ h2] at this

/-! ## Test fixtures

The header and entry values of `tests/common` (reconstructed from the
identical values in the crate root's doc example) and the reference disk
image `SPARSE_DISK` of `tests/test_disk.rs`.
-/

/-- The primary header fixture (`create_primary_header`). -/
def create_primary_header : GptHeader :=
  { signature := efiSignature, revision := 65536, header_size := 92,
    header_crc32 := 0xa4877843, my_lba := 1, alternate_lba := 8191,
    first_usable_lba := 34, last_usable_lba := 8158,
    disk_guid := Guid.from_bytes
      [182, 254, 167, 87, 213, 140, 34, 73, 183, 189, 199, 139, 9, 20, 232, 112],
    partition_entry_lba := 2, number_of_partition_entries := 128,
    size_of_partition_entry := 128, partition_entry_array_crc32 := 0x9206adff }

/-- The secondary header fixture (`create_secondary_header`): mirrored
fields, its own entry-array LBA. -/
def create_secondary_header : GptHeader :=
  { create_primary_header with
    header_crc32 := 0xdbeb4c13, my_lba := 8191, alternate_lba := 1,
    partition_entry_lba := 8159 }

/-- The partition entry fixture (`create_partition_entry`): type GUID
`ccf0994f-f7e0-4e26-a011-843e38aa2eac`, LBA range 2048–4096, name
"hello world!". -/
def create_partition_entry : GptPartitionEntry :=
  { partition_type_guid := Guid.from_bytes
      [79, 153, 240, 204, 224, 247, 38, 78, 160, 17, 132, 62, 56, 170, 46, 172],
    unique_partition_guid := Guid.from_bytes
      [253, 95, 199, 55, 50, 137, 122, 70, 156, 86, 140, 241, 240, 69, 107, 18],
    starting_lba := 2048, ending_lba := 4096, attributes := 0,
    name := strBytes "hello world!" ++ List.replicate 24 0 }

/-- The sparse chunks of the 4 MiB reference image (`SPARSE_DISK`). -/
def sparseChunks : List (Nat × List Nat) :=
  [(0x1c0, [2, 0, 238, 130, 2, 0, 1, 0, 0, 0, 255, 31, 0, 0, 0, 0]),
   (0x1f0, [0, 0, 0, 0, 0, 0, 0, 0, 0, 0, 0, 0, 0, 0, 85, 170]),
   (0x200, [69, 70, 73, 32, 80, 65, 82, 84, 0, 0, 1, 0, 92, 0, 0, 0]),
   (0x210, [67, 120, 135, 164, 0, 0, 0, 0, 1, 0, 0, 0, 0, 0, 0, 0]),
   (0x220, [255, 31, 0, 0, 0, 0, 0, 0, 34, 0, 0, 0, 0, 0, 0, 0]),
   (0x230, [222, 31, 0, 0, 0, 0, 0, 0, 182, 254, 167, 87, 213, 140, 34, 73]),
   (0x240, [183, 189, 199, 139, 9, 20, 232, 112, 2, 0, 0, 0, 0, 0, 0, 0]),
   (0x250, [128, 0, 0, 0, 128, 0, 0, 0, 255, 173, 6, 146, 0, 0, 0, 0]),
   (0x400, [79, 153, 240, 204, 224, 247, 38, 78, 160, 17, 132, 62, 56, 170, 46, 172]),
   (0x410, [253, 95, 199, 55, 50, 137, 122, 70, 156, 86, 140, 241, 240, 69, 107, 18]),
   (0x420, [0, 8, 0, 0, 0, 0, 0, 0, 0, 16, 0, 0, 0, 0, 0, 0]),
   (0x430, [0, 0, 0, 0, 0, 0, 0, 0, 104, 0, 101, 0, 108, 0, 108, 0]),
   (0x440, [111, 0, 32, 0, 119, 0, 111, 0, 114, 0, 108, 0, 100, 0, 33, 0]),
   (0x3fbe00, [79, 153, 240, 204, 224, 247, 38, 78, 160, 17, 132, 62, 56, 170, 46, 172]),
   (0x3fbe10, [253, 95, 199, 55, 50, 137, 122, 70, 156, 86, 140, 241, 240, 69, 107, 18]),
   (0x3fbe20, [0, 8, 0, 0, 0, 0, 0, 0, 0, 16, 0, 0, 0, 0, 0, 0]),
   (0x3fbe30, [0, 0, 0, 0, 0, 0, 0, 0, 104, 0, 101, 0, 108, 0, 108, 0]),
   (0x3fbe40, [111, 0, 32, 0, 119, 0, 111, 0, 114, 0, 108, 0, 100, 0, 33, 0]),
   (0x3ffe00, [69, 70, 73, 32, 80, 65, 82, 84, 0, 0, 1, 0, 92, 0, 0, 0]),
   (0x3ffe10, [19, 76, 235, 219, 0, 0, 0, 0, 255, 31, 0, 0, 0, 0, 0, 0]),
   (0x3ffe20, [1, 0, 0, 0, 0, 0, 0, 0, 34, 0, 0, 0, 0, 0, 0, 0]),
   (0x3ffe30, [222, 31, 0, 0, 0, 0, 0, 0, 182, 254, 167, 87, 213, 140, 34, 73]),
   (0x3ffe40, [183, 189, 199, 139, 9, 20, 232, 112, 223, 31, 0, 0, 0, 0, 0, 0]),
   (0x3ffe50, [128, 0, 0, 0, 128, 0, 0, 0, 255, 173, 6, 146, 0, 0, 0, 0])]

/-- Byte of a sparse chunk list at an address, zero outside all chunks. -/
def sparseAt : List (Nat × List Nat) → Nat → Nat
  | [], _ => 0
  | (off, data) :: rest, addr =>
    if off ≤ addr ∧ addr < off + data.length then data.getD (addr - off) 0
    else sparseAt rest addr

/-- The reference disk: the sparse image loaded onto a 4 MiB medium with
512-byte blocks (`load_test_disk`). -/
def referenceDisk : DiskState :=
  ⟨sparseAt sparseChunks, 512, 8192⟩

/-! ## Claim theorems: partition entries -/

/-- C8: a partition entry reports as unused exactly when its type GUID
is the all-zero GUID, and used/unused depends on nothing but the type
GUID. -/
theorem is_used_iff_type_guid_nonzero (e : GptPartitionEntry) :
    (e.is_used = true ↔ e.partition_type_guid ≠ Guid.zero) ∧
    (∀ e2 : GptPartitionEntry,
      e2.partition_type_guid = e.partition_type_guid → e2.is_used = e.is_used) := by
  constructor
  · simp [GptPartitionEntry.is_used, Guid.is_zero]
  · intro e2 he
    simp [GptPartitionEntry.is_used, Guid.is_zero, he]

/-- Concrete instantiation of `is_used_iff_type_guid_nonzero`: the test
entry reports used, the all-zero entry of slot 1 reports unused. -/
theorem is_used_iff_type_guid_nonzero_witness :
    (create_partition_entry.is_used = true ↔
      create_partition_entry.partition_type_guid ≠ Guid.zero) ∧
    ((GptPartitionEntry.decode (List.replicate 128 0)).is_used = true ↔
      (GptPartitionEntry.decode
        (List.replicate 128 0)).partition_type_guid ≠ Guid.zero) :=
  ⟨(is_used_iff_type_guid_nonzero create_partition_entry).1,
   (is_used_iff_type_guid_nonzero (GptPartitionEntry.decode (List.replicate 128 0))).1⟩

example : create_partition_entry.is_used = true := by decide

example : (GptPartitionEntry.decode (List.replicate 128 0)).is_used = false := by
  decide

/-! ## Claim theorems: header reads -/

set_option maxRecDepth 100000 in
set_option maxHeartbeats 2000000 in
/-- C3: `read_primary_gpt_header` reads exactly one block from the fixed
LBA 1 and `read_secondary_gpt_header` one block from `num_blocks − 1`,
each decoding the header stored there: the results equal the decode of
exactly that block's bytes, and on the reference disk they decode to the
primary and secondary fixture headers. -/
theorem read_gpt_header_placement (d : DiskState) (hnb : 2 ≤ d.num_blocks) :
    d.read_primary_gpt_header =
      decodeGptHeaderBlock (readRange d.bytes (1 * d.block_size) d.block_size) ∧
    d.read_secondary_gpt_header =
      decodeGptHeaderBlock
        (readRange d.bytes ((d.num_blocks - 1) * d.block_size) d.block_size) ∧
    referenceDisk.read_primary_gpt_header = .ok create_primary_header ∧
    referenceDisk.read_secondary_gpt_header = .ok create_secondary_header := by
  refine ⟨?_, ?_, by decide, by decide⟩
  · unfold DiskState.read_primary_gpt_header DiskState.read_blocks
    rw [if_pos (by omega)]
    simp [Except.bind, one_mul]
  · unfold DiskState.read_secondary_gpt_header DiskState.read_blocks
    rw [if_pos (by omega)]
    simp [Except.bind, one_mul]

/-- Concrete instantiation of `read_gpt_header_placement` at the
reference disk. -/
theorem read_gpt_header_placement_witness :
    2 ≤ referenceDisk.num_blocks ∧
    referenceDisk.read_primary_gpt_header = .ok create_primary_header ∧
    referenceDisk.read_secondary_gpt_header = .ok create_secondary_header :=
  ⟨by decide,
   (read_gpt_header_placement referenceDisk (by decide)).2.2.1,
   (read_gpt_header_placement referenceDisk (by decide)).2.2.2⟩

/-! ## Claim theorems: header writes -/

theorem getD_encode_crc_field (h : GptHeader) (hsig : h.signature.length = 8)
    (k : Nat) (hk : k < 4) :
    (GptHeader.encode h).getD (16 + k) 0 = (natToLe 4 h.header_crc32).getD k 0 := by
  unfold GptHeader.encode
  repeat
    rw [List.getD_append _ _ _ _
      (by simp only [List.length_append, natToLe_length, hsig]; omega)]
  rw [List.getD_append_right _ _ _ _
    (by simp only [List.length_append, natToLe_length, hsig]; omega)]
  have e : 16 + k -
      (h.signature ++ natToLe 4 h.revision ++ natToLe 4 h.header_size).length = k := by
    simp only [List.length_append, natToLe_length, hsig]
    omega
  rw [e]

/-- The zero-filled 4 MiB medium with 512-byte blocks used by the write
tests. -/
def zeroDisk : DiskState := ⟨fun _ => 0, 512, 8192⟩

/-- C4: writing a GPT header (primary or secondary path) replaces
exactly the block at `h.my_lba` with the header's serialization, whose
checksum field (bytes 16–19) holds the CRC-32 recomputed over the
header's declared size with the checksum field zeroed during the
computation. -/
theorem write_gpt_header_spec (d : DiskState) (h : GptHeader)
    (hbs : 92 ≤ d.block_size) (hsig : h.signature.length = 8)
    (hlba : h.my_lba < d.num_blocks) :
    d.write_primary_gpt_header h =
      .ok { d with bytes := writeRange d.bytes (h.my_lba * d.block_size) (h.encode_block d.block_size) } ∧
    d.write_secondary_gpt_header h =
      .ok { d with bytes := writeRange d.bytes (h.my_lba * d.block_size) (h.encode_block d.block_size) } ∧
    sliceD (h.encode_block d.block_size) 16 4 =
      natToLe 4 (crc32 (sliceD
        (GptHeader.encode { h with header_crc32 := 0 }) 0 h.header_size)) := by
  have hlen : (h.encode_block d.block_size).length = d.block_size :=
    sliceD_length _ _ _
  have hwrite : d.write_gpt_header h =
      .ok { d with bytes := writeRange d.bytes (h.my_lba * d.block_size) (h.encode_block d.block_size) } := by
    unfold DiskState.write_gpt_header DiskState.write_blocks
    rw [hlen]
    rw [if_neg (by simp [Nat.mod_self]; omega)]
    rw [if_pos (by rw [Nat.div_self (by omega)]; omega)]
  refine ⟨hwrite, hwrite, ?_⟩
  apply list_ext_getD
  · rw [sliceD_length, natToLe_length]
  · intro k hk
    rw [sliceD_length] at hk
    rw [getD_sliceD _ _ _ _ hk]
    unfold GptHeader.encode_block
    rw [getD_sliceD _ _ _ _ (by omega)]
    have e0 : (0 : Nat) + (16 + k) = 16 + k := by omega
    rw [e0]
    rw [getD_encode_crc_field { h with header_crc32 := h.compute_crc32 }
      (by exact hsig) k hk]
    rfl

/-- Concrete instantiation of `write_gpt_header_spec` at the zero disk
and the primary header fixture. -/
theorem write_gpt_header_spec_witness :
    92 ≤ zeroDisk.block_size ∧
    sliceD (create_primary_header.encode_block zeroDisk.block_size) 16 4 =
      natToLe 4 (crc32 (sliceD (GptHeader.encode
        { create_primary_header with header_crc32 := 0 }) 0
        create_primary_header.header_size)) :=
  ⟨by decide,
   (write_gpt_header_spec zeroDisk create_primary_header (by decide) (by decide)
     (by decide)).2.2⟩



/-! ## Concrete header checksums (chunked CRC evaluation) -/

set_option maxRecDepth 4000 in
theorem compute_crc32_primary :
    create_primary_header.compute_crc32 = 2760341571 := by
  unfold GptHeader.compute_crc32 crc32
  rw [show sliceD (GptHeader.encode
      { create_primary_header with header_crc32 := 0 }) 0 create_primary_header.header_size =
      [69, 70, 73, 32, 80, 65, 82, 84] ++ ([0, 0, 1, 0, 92, 0, 0, 0] ++ ([0, 0, 0, 0, 0, 0, 0, 0] ++ ([1, 0, 0, 0, 0, 0, 0, 0] ++ ([255, 31, 0, 0, 0, 0, 0, 0] ++ ([34, 0, 0, 0, 0, 0, 0, 0] ++ ([222, 31, 0, 0, 0, 0, 0, 0] ++ ([182, 254, 167, 87, 213, 140, 34, 73] ++ ([183, 189, 199, 139, 9, 20, 232, 112] ++ ([2, 0, 0, 0, 0, 0, 0, 0] ++ ([128, 0, 0, 0, 128, 0, 0, 0] ++ ([255, 173, 6, 146]))))))))))) from rfl]
  have s0 : List.foldl crc32Round 4294967295
      [69, 70, 73, 32, 80, 65, 82, 84] = 1798544018 := by decide
  have s1 : List.foldl crc32Round 1798544018
      [0, 0, 1, 0, 92, 0, 0, 0] = 9882142 := by decide
  have s2 : List.foldl crc32Round 9882142
      [0, 0, 0, 0, 0, 0, 0, 0] = 3395491458 := by decide
  have s3 : List.foldl crc32Round 3395491458
      [1, 0, 0, 0, 0, 0, 0, 0] = 4102006339 := by decide
  have s4 : List.foldl crc32Round 4102006339
      [255, 31, 0, 0, 0, 0, 0, 0] = 1937014802 := by decide
  have s5 : List.foldl crc32Round 1937014802
      [34, 0, 0, 0, 0, 0, 0, 0] = 588934215 := by decide
  have s6 : List.foldl crc32Round 588934215
      [222, 31, 0, 0, 0, 0, 0, 0] = 3378712901 := by decide
  have s7 : List.foldl crc32Round 3378712901
      [182, 254, 167, 87, 213, 140, 34, 73] = 827593951 := by decide
  have s8 : List.foldl crc32Round 827593951
      [183, 189, 199, 139, 9, 20, 232, 112] = 2956793109 := by decide
  have s9 : List.foldl crc32Round 2956793109
      [2, 0, 0, 0, 0, 0, 0, 0] = 3954939708 := by decide
  have s10 : List.foldl crc32Round 3954939708
      [128, 0, 0, 0, 128, 0, 0, 0] = 1768302617 := by decide
  have s11 : List.foldl crc32Round 1768302617
      [255, 173, 6, 146] = 1534625724 := by decide
  rw [List.foldl_append, s0, List.foldl_append, s1, List.foldl_append, s2, List.foldl_append, s3, List.foldl_append, s4, List.foldl_append, s5, List.foldl_append, s6, List.foldl_append, s7, List.foldl_append, s8, List.foldl_append, s9, List.foldl_append, s10, s11]
  decide

set_option maxRecDepth 4000 in
theorem compute_crc32_secondary :
    create_secondary_header.compute_crc32 = 3689630739 := by
  unfold GptHeader.compute_crc32 crc32
  rw [show sliceD (GptHeader.encode
      { create_secondary_header with header_crc32 := 0 }) 0 create_secondary_header.header_size =
      [69, 70, 73, 32, 80, 65, 82, 84] ++ ([0, 0, 1, 0, 92, 0, 0, 0] ++ ([0, 0, 0, 0, 0, 0, 0, 0] ++ ([255, 31, 0, 0, 0, 0, 0, 0] ++ ([1, 0, 0, 0, 0, 0, 0, 0] ++ ([34, 0, 0, 0, 0, 0, 0, 0] ++ ([222, 31, 0, 0, 0, 0, 0, 0] ++ ([182, 254, 167, 87, 213, 140, 34, 73] ++ ([183, 189, 199, 139, 9, 20, 232, 112] ++ ([223, 31, 0, 0, 0, 0, 0, 0] ++ ([128, 0, 0, 0, 128, 0, 0, 0] ++ ([255, 173, 6, 146]))))))))))) from rfl]
  have s0 : List.foldl crc32Round 4294967295
      [69, 70, 73, 32, 80, 65, 82, 84] = 1798544018 := by decide
  have s1 : List.foldl crc32Round 1798544018
      [0, 0, 1, 0, 92, 0, 0, 0] = 9882142 := by decide
  have s2 : List.foldl crc32Round 9882142
      [0, 0, 0, 0, 0, 0, 0, 0] = 3395491458 := by decide
  have s3 : List.foldl crc32Round 3395491458
      [255, 31, 0, 0, 0, 0, 0, 0] = 2399685660 := by decide
  have s4 : List.foldl crc32Round 2399685660
      [1, 0, 0, 0, 0, 0, 0, 0] = 3153108697 := by decide
  have s5 : List.foldl crc32Round 3153108697
      [34, 0, 0, 0, 0, 0, 0, 0] = 1869817185 := by decide
  have s6 : List.foldl crc32Round 1869817185
      [222, 31, 0, 0, 0, 0, 0, 0] = 2500960740 := by decide
  have s7 : List.foldl crc32Round 2500960740
      [182, 254, 167, 87, 213, 140, 34, 73] = 3436130925 := by decide
  have s8 : List.foldl crc32Round 3436130925
      [183, 189, 199, 139, 9, 20, 232, 112] = 1334229509 := by decide
  have s9 : List.foldl crc32Round 1334229509
      [223, 31, 0, 0, 0, 0, 0, 0] = 2416225856 := by decide
  have s10 : List.foldl crc32Round 2416225856
      [128, 0, 0, 0, 128, 0, 0, 0] = 3405528121 := by decide
  have s11 : List.foldl crc32Round 3405528121
      [255, 173, 6, 146] = 605336556 := by decide
  rw [List.foldl_append, s0, List.foldl_append, s1, List.foldl_append, s2, List.foldl_append, s3, List.foldl_append, s4, List.foldl_append, s5, List.foldl_append, s6, List.foldl_append, s7, List.foldl_append, s8, List.foldl_append, s9, List.foldl_append, s10, s11]
  decide

/-! ## Lemmas for the array round-trip -/

theorem overwriteAt_length (l : List Nat) (off : Nat) (data : List Nat) :
    (overwriteAt l off data).length = l.length := by
  simp [overwriteAt]

theorem getD_overwriteAt (l : List Nat) (off : Nat) (data : List Nat)
    (p : Nat) (hp : p < l.length) :
    (overwriteAt l off data).getD p 0 =
      if off ≤ p ∧ p < off + data.length then data.getD (p - off) 0
      else l.getD p 0 := by
  unfold overwriteAt
  rw [List.getD_eq_getElem _ _ (by simpa using hp)]
  simp

theorem Guid.to_bytes_length (g : Guid) (h : g.wf) : g.to_bytes.length = 16 := by
  obtain ⟨h1, h2, h3, h4, _⟩ := h
  simp [Guid.to_bytes, h1, h2, h3, h4]

theorem Guid.from_bytes_to_bytes (g : Guid) (h : g.wf) :
    Guid.from_bytes g.to_bytes = g := by
  obtain ⟨tl, tm, th, a, c, nd⟩ := g
  obtain ⟨h1, h2, h3, h4, _⟩ := h
  obtain ⟨t0, t1, t2, t3, rfl⟩ := list_len4 tl h1
  obtain ⟨m0, m1, rfl⟩ := list_len2 tm h2
  obtain ⟨v0, v1, rfl⟩ := list_len2 th h3
  obtain ⟨n0, n1, n2, n3, n4, n5, rfl⟩ := list_len6 nd h4
  rfl

theorem encodeU16s_length (l : List Nat) : (encodeU16s l).length = 2 * l.length := by
  induction l with
  | nil => rfl
  | cons u rest ih =>
    show (natToLe 2 u ++ encodeU16s rest).length = 2 * (rest.length + 1)
    rw [List.length_append, natToLe_length, ih]
    omega

theorem decodeU16s_encodeU16s (l : List Nat) (h : ∀ u ∈ l, u < 65536) :
    decodeU16s (encodeU16s l) = l := by
  induction l with
  | nil => rfl
  | cons u rest ih =>
    have hu : u < 65536 := h u (by simp)
    have hrest := ih (fun x hx => h x (by simp [hx]))
    show decodeU16s (u % 256 :: u / 256 % 256 :: encodeU16s rest) = u :: rest
    rw [decodeU16s, hrest]
    congr 1
    omega

/-- Well-formedness of a partition entry: well-formed GUIDs, 64-bit
numeric fields, a 36-unit name of 16-bit units. -/
def GptPartitionEntry.wf (e : GptPartitionEntry) : Prop :=
  e.partition_type_guid.wf ∧ e.unique_partition_guid.wf ∧
  e.starting_lba < 256 ^ 8 ∧ e.ending_lba < 256 ^ 8 ∧ e.attributes < 256 ^ 8 ∧
  e.name.length = 36 ∧ ∀ u ∈ e.name, u < 65536

instance (e : GptPartitionEntry) : Decidable e.wf := by
  unfold GptPartitionEntry.wf; infer_instance

theorem GptPartitionEntry.encode_length (e : GptPartitionEntry) (h : e.wf) :
    e.encode.length = 128 := by
  obtain ⟨h1, h2, _, _, _, h6, _⟩ := h
  unfold GptPartitionEntry.encode
  rw [List.length_append, List.length_append, List.length_append,
    List.length_append, List.length_append, Guid.to_bytes_length _ h1,
    Guid.to_bytes_length _ h2, natToLe_length, natToLe_length, natToLe_length,
    encodeU16s_length, h6]

/-! Slice extraction of each serialized entry field. -/

theorem sliceD_encode_type_guid (e : GptPartitionEntry) (h : e.wf) :
    sliceD e.encode 0 16 = e.partition_type_guid.to_bytes := by
  obtain ⟨h1, h2, _, _, _, h6, _⟩ := h
  have h16a := Guid.to_bytes_length _ h1
  have h16b := Guid.to_bytes_length _ h2
  apply list_ext_getD
  · rw [sliceD_length]
    simp only [List.length_append, natToLe_length, h16a, h16b, encodeU16s_length, h6]
  · intro k hk
    rw [sliceD_length] at hk
    rw [getD_sliceD _ _ _ _ hk]
    unfold GptPartitionEntry.encode
    rw [List.getD_append _ _ _ _ (by simp only [List.length_append, natToLe_length, h16a, h16b, encodeU16s_length, h6]; omega)]
    rw [List.getD_append _ _ _ _ (by simp only [List.length_append, natToLe_length, h16a, h16b, encodeU16s_length, h6]; omega)]
    rw [List.getD_append _ _ _ _ (by simp only [List.length_append, natToLe_length, h16a, h16b, encodeU16s_length, h6]; omega)]
    rw [List.getD_append _ _ _ _ (by simp only [List.length_append, natToLe_length, h16a, h16b, encodeU16s_length, h6]; omega)]
    rw [List.getD_append _ _ _ _ (by simp only [List.length_append, natToLe_length, h16a, h16b, encodeU16s_length, h6]; omega)]
    rw [Nat.zero_add]

theorem sliceD_encode_unique_guid (e : GptPartitionEntry) (h : e.wf) :
    sliceD e.encode 16 16 = e.unique_partition_guid.to_bytes := by
  obtain ⟨h1, h2, _, _, _, h6, _⟩ := h
  have h16a := Guid.to_bytes_length _ h1
  have h16b := Guid.to_bytes_length _ h2
  apply list_ext_getD
  · rw [sliceD_length]
    simp only [List.length_append, natToLe_length, h16a, h16b, encodeU16s_length, h6]
  · intro k hk
    rw [sliceD_length] at hk
    rw [getD_sliceD _ _ _ _ hk]
    unfold GptPartitionEntry.encode
    rw [List.getD_append _ _ _ _ (by simp only [List.length_append, natToLe_length, h16a, h16b, encodeU16s_length, h6]; omega)]
    rw [List.getD_append _ _ _ _ (by simp only [List.length_append, natToLe_length, h16a, h16b, encodeU16s_length, h6]; omega)]
    rw [List.getD_append _ _ _ _ (by simp only [List.length_append, natToLe_length, h16a, h16b, encodeU16s_length, h6]; omega)]
    rw [List.getD_append _ _ _ _ (by simp only [List.length_append, natToLe_length, h16a, h16b, encodeU16s_length, h6]; omega)]
    rw [List.getD_append_right _ _ _ _ (by simp only [List.length_append, natToLe_length, h16a, h16b, encodeU16s_length, h6]; omega)]
    congr 1
    simp only [List.length_append, natToLe_length, h16a, h16b, encodeU16s_length, h6]
    omega

theorem sliceD_encode_start_lba (e : GptPartitionEntry) (h : e.wf) :
    sliceD e.encode 32 8 = natToLe 8 e.starting_lba := by
  obtain ⟨h1, h2, _, _, _, h6, _⟩ := h
  have h16a := Guid.to_bytes_length _ h1
  have h16b := Guid.to_bytes_length _ h2
  apply list_ext_getD
  · rw [sliceD_length]
    simp only [List.length_append, natToLe_length, h16a, h16b, encodeU16s_length, h6]
  · intro k hk
    rw [sliceD_length] at hk
    rw [getD_sliceD _ _ _ _ hk]
    unfold GptPartitionEntry.encode
    rw [List.getD_append _ _ _ _ (by simp only [List.length_append, natToLe_length, h16a, h16b, encodeU16s_length, h6]; omega)]
    rw [List.getD_append _ _ _ _ (by simp only [List.length_append, natToLe_length, h16a, h16b, encodeU16s_length, h6]; omega)]
    rw [List.getD_append _ _ _ _ (by simp only [List.length_append, natToLe_length, h16a, h16b, encodeU16s_length, h6]; omega)]
    rw [List.getD_append_right _ _ _ _ (by simp only [List.length_append, natToLe_length, h16a, h16b, encodeU16s_length, h6]; omega)]
    congr 1
    simp only [List.length_append, natToLe_length, h16a, h16b, encodeU16s_length, h6]
    omega

theorem sliceD_encode_end_lba (e : GptPartitionEntry) (h : e.wf) :
    sliceD e.encode 40 8 = natToLe 8 e.ending_lba := by
  obtain ⟨h1, h2, _, _, _, h6, _⟩ := h
  have h16a := Guid.to_bytes_length _ h1
  have h16b := Guid.to_bytes_length _ h2
  apply list_ext_getD
  · rw [sliceD_length]
    simp only [List.length_append, natToLe_length, h16a, h16b, encodeU16s_length, h6]
  · intro k hk
    rw [sliceD_length] at hk
    rw [getD_sliceD _ _ _ _ hk]
    unfold GptPartitionEntry.encode
    rw [List.getD_append _ _ _ _ (by simp only [List.length_append, natToLe_length, h16a, h16b, encodeU16s_length, h6]; omega)]
    rw [List.getD_append _ _ _ _ (by simp only [List.length_append, natToLe_length, h16a, h16b, encodeU16s_length, h6]; omega)]
    rw [List.getD_append_right _ _ _ _ (by simp only [List.length_append, natToLe_length, h16a, h16b, encodeU16s_length, h6]; omega)]
    congr 1
    simp only [List.length_append, natToLe_length, h16a, h16b, encodeU16s_length, h6]
    omega

theorem sliceD_encode_attributes (e : GptPartitionEntry) (h : e.wf) :
    sliceD e.encode 48 8 = natToLe 8 e.attributes := by
  obtain ⟨h1, h2, _, _, _, h6, _⟩ := h
  have h16a := Guid.to_bytes_length _ h1
  have h16b := Guid.to_bytes_length _ h2
  apply list_ext_getD
  · rw [sliceD_length]
    simp only [List.length_append, natToLe_length, h16a, h16b, encodeU16s_length, h6]
  · intro k hk
    rw [sliceD_length] at hk
    rw [getD_sliceD _ _ _ _ hk]
    unfold GptPartitionEntry.encode
    rw [List.getD_append _ _ _ _ (by simp only [List.length_append, natToLe_length, h16a, h16b, encodeU16s_length, h6]; omega)]
    rw [List.getD_append_right _ _ _ _ (by simp only [List.length_append, natToLe_length, h16a, h16b, encodeU16s_length, h6]; omega)]
    congr 1
    simp only [List.length_append, natToLe_length, h16a, h16b, encodeU16s_length, h6]
    omega

theorem sliceD_encode_name_units (e : GptPartitionEntry) (h : e.wf) :
    sliceD e.encode 56 72 = encodeU16s e.name := by
  obtain ⟨h1, h2, _, _, _, h6, _⟩ := h
  have h16a := Guid.to_bytes_length _ h1
  have h16b := Guid.to_bytes_length _ h2
  apply list_ext_getD
  · rw [sliceD_length]
    simp only [List.length_append, natToLe_length, h16a, h16b, encodeU16s_length, h6]
  · intro k hk
    rw [sliceD_length] at hk
    rw [getD_sliceD _ _ _ _ hk]
    unfold GptPartitionEntry.encode
    rw [List.getD_append_right _ _ _ _ (by simp only [List.length_append, natToLe_length, h16a, h16b, encodeU16s_length, h6]; omega)]
    congr 1
    simp only [List.length_append, natToLe_length, h16a, h16b, encodeU16s_length, h6]
    omega

theorem GptPartitionEntry.decode_encode (e : GptPartitionEntry) (h : e.wf) :
    GptPartitionEntry.decode e.encode = e := by
  unfold GptPartitionEntry.decode
  rw [sliceD_encode_type_guid e h, sliceD_encode_unique_guid e h,
    sliceD_encode_start_lba e h, sliceD_encode_end_lba e h,
    sliceD_encode_attributes e h, sliceD_encode_name_units e h]
  rw [Guid.from_bytes_to_bytes _ h.1, Guid.from_bytes_to_bytes _ h.2.1]
  rw [leToNat_natToLe 8 _ h.2.2.1, leToNat_natToLe 8 _ h.2.2.2.1,
    leToNat_natToLe 8 _ h.2.2.2.2.1]
  rw [decodeU16s_encodeU16s _ h.2.2.2.2.2.2]

/-- Store a list of entries into consecutive slots starting at `i0` (the
test stores entries into slots of a fresh zeroed array). -/
def setEntriesFrom : GptPartitionEntryArray → Nat → List GptPartitionEntry →
    GptPartitionEntryArray
  | arr, _, [] => arr
  | arr, i0, e :: rest => setEntriesFrom (arr.set_partition_entry i0 e) (i0 + 1) rest

theorem setEntriesFrom_layout (es : List GptPartitionEntry) :
    ∀ arr i0, (setEntriesFrom arr i0 es).layout = arr.layout := by
  induction es with
  | nil => intro arr i0; rfl
  | cons e rest ih => intro arr i0; exact ih _ _

theorem setEntriesFrom_storage_length (es : List GptPartitionEntry) :
    ∀ arr i0, (setEntriesFrom arr i0 es).storage.length = arr.storage.length := by
  induction es with
  | nil => intro arr i0; rfl
  | cons e rest ih =>
    intro arr i0
    exact (ih _ _).trans (overwriteAt_length _ _ _)

theorem setEntriesFrom_frame (es : List GptPartitionEntry) :
    ∀ (arr : GptPartitionEntryArray) (i0 p : Nat),
    p < i0 * arr.layout.entry_size → p < arr.storage.length →
    (setEntriesFrom arr i0 es).storage.getD p 0 = arr.storage.getD p 0 := by
  induction es with
  | nil => intro arr i0 p h1 h2; rfl
  | cons e rest ih =>
    intro arr i0 p h1 h2
    have hlen : (arr.set_partition_entry i0 e).storage.length =
        arr.storage.length := overwriteAt_length _ _ _
    have h3 := ih (arr.set_partition_entry i0 e) (i0 + 1) p
      (by show p < (i0 + 1) * arr.layout.entry_size
          rw [Nat.succ_mul]; omega)
      (by rw [hlen]; exact h2)
    have h4 : (arr.set_partition_entry i0 e).storage.getD p 0 =
        arr.storage.getD p 0 := by
      show (overwriteAt arr.storage (i0 * arr.layout.entry_size) e.encode).getD p 0 = _
      rw [getD_overwriteAt _ _ _ _ h2, if_neg (by omega)]
    exact h3.trans h4

theorem setEntriesFrom_slot (es : List GptPartitionEntry) :
    ∀ (arr : GptPartitionEntryArray) (i0 j : Nat) (hj : j < es.length),
    128 ≤ arr.layout.entry_size →
    (i0 + es.length) * arr.layout.entry_size ≤ arr.storage.length →
    (∀ e ∈ es, e.wf) →
    sliceD (setEntriesFrom arr i0 es).storage
        ((i0 + j) * arr.layout.entry_size) 128 = (es.get ⟨j, hj⟩).encode := by
  induction es with
  | nil => intro arr i0 j hj; exact absurd hj (by simp)
  | cons e rest ih =>
    intro arr i0 j hj hE hfit hwf
    have hEsz : (arr.set_partition_entry i0 e).layout.entry_size =
        arr.layout.entry_size := rfl
    have hlen : (arr.set_partition_entry i0 e).storage.length =
        arr.storage.length := overwriteAt_length _ _ _
    have hewf : e.wf := hwf e (by simp)
    have he128 : e.encode.length = 128 := GptPartitionEntry.encode_length e hewf
    cases j with
    | zero =>
      apply list_ext_getD
      · rw [sliceD_length]
        exact he128.symm
      · intro k hk
        rw [sliceD_length] at hk
        rw [getD_sliceD _ _ _ _ hk]
        show (setEntriesFrom (arr.set_partition_entry i0 e) (i0 + 1)
          rest).storage.getD (i0 * arr.layout.entry_size + k) 0 = _
        have hp1 : i0 * arr.layout.entry_size + k <
            (i0 + 1) * arr.layout.entry_size := by
          rw [Nat.succ_mul]; omega
        have hp2 : i0 * arr.layout.entry_size + k < arr.storage.length := by
          have hmono : (i0 + 1) * arr.layout.entry_size ≤
              (i0 + (rest.length + 1)) * arr.layout.entry_size :=
            Nat.mul_le_mul_right _ (by omega)
          have hfit2 : (i0 + (rest.length + 1)) * arr.layout.entry_size ≤
              arr.storage.length := by simpa using hfit
          omega
        rw [setEntriesFrom_frame rest (arr.set_partition_entry i0 e) (i0 + 1) _
          (by exact hp1) (by rw [hlen]; exact hp2)]
        show (overwriteAt arr.storage (i0 * arr.layout.entry_size)
          e.encode).getD (i0 * arr.layout.entry_size + k) 0 = _
        rw [getD_overwriteAt _ _ _ _ hp2]
        rw [if_pos (by rw [he128]; omega)]
        have hsub : i0 * arr.layout.entry_size + k -
            i0 * arr.layout.entry_size = k := by omega
        rw [hsub]
        rfl
    | succ j2 =>
      have h5 := ih (arr.set_partition_entry i0 e) (i0 + 1) j2
        (by simpa using hj) (by rw [hEsz]; exact hE)
        (by rw [hEsz, hlen]
            have : (i0 + 1 + rest.length) = i0 + (rest.length + 1) := by omega
            rw [this]; exact hfit)
        (fun x hx => hwf x (by simp [hx]))
      have hidx : (i0 + 1 + j2) = i0 + (j2 + 1) := by omega
      rw [hidx] at h5
      exact h5

/-! ## Iterator lemmas -/

theorem iterNext_none (d : DiskState) (st : GptPartitionEntryIter)
    (h : st.layout.num_entries ≤ st.entry_index) : iterNext d st = (none, st) := by
  unfold iterNext
  rw [if_neg (by omega)]

theorem iterNext_isSome (d : DiskState) (st : GptPartitionEntryIter)
    (h : st.entry_index < st.layout.num_entries) :
    (iterNext d st).fst.isSome = true ∧
    (iterNext d st).snd.entry_index = st.entry_index + 1 ∧
    (iterNext d st).snd.layout = st.layout := by
  unfold iterNext
  rw [if_pos h]
  dsimp only
  repeat' split
  all_goals exact ⟨rfl, rfl, rfl⟩

theorem iterNext_fresh_ok (d : DiskState) (st : GptPartitionEntryIter)
    (data : List Nat) (h : st.entry_index < st.layout.num_entries)
    (hbuf : st.buffered = none)
    (hread : d.read_blocks (st.layout.start_lba +
      st.entry_index / (d.block_size / st.layout.entry_size)) 1 = .ok data) :
    iterNext d st = (some (.ok (GptPartitionEntry.decode (sliceD data
        (st.entry_index % (d.block_size / st.layout.entry_size) *
          st.layout.entry_size) 128))),
      ⟨st.layout, st.entry_index + 1,
        some (st.entry_index / (d.block_size / st.layout.entry_size), data)⟩) := by
  unfold iterNext
  rw [if_pos h]
  simp only [hbuf, hread]

theorem iterNext_fresh_error (d : DiskState) (st : GptPartitionEntryIter)
    (err : DiskError) (h : st.entry_index < st.layout.num_entries)
    (hbuf : st.buffered = none)
    (hread : d.read_blocks (st.layout.start_lba +
      st.entry_index / (d.block_size / st.layout.entry_size)) 1 = .error err) :
    iterNext d st =
      (some (.error err), ⟨st.layout, st.entry_index + 1, st.buffered⟩) := by
  unfold iterNext
  rw [if_pos h]
  simp only [hbuf, hread]

theorem iterRunAux_length (d : DiskState) :
    ∀ fuel st, fuel = st.layout.num_entries - st.entry_index →
    (iterRunAux d fuel st).length = fuel := by
  intro fuel
  induction fuel with
  | zero => intro st h; rfl
  | succ n ih =>
    intro st h
    have hlt : st.entry_index < st.layout.num_entries := by omega
    obtain ⟨hs, hidx, hlay⟩ := iterNext_isSome d st hlt
    unfold iterRunAux
    rcases hn : iterNext d st with ⟨fst, snd⟩
    rw [hn] at hs hidx hlay
    simp only at hs hidx hlay
    cases fst with
    | none => simp at hs
    | some r =>
      show (r :: iterRunAux d n snd).length = n + 1
      rw [List.length_cons, ih snd (by rw [hlay, hidx]; omega)]

/-- C5: the iterator yields an item exactly while the entry index is
below the entry count — a successful block read yields the decoded entry
as `Some(Ok _)` and a failed read is wrapped as `Some(Err _)` — yields
`None` once the index equals the count, and a run of a freshly
constructed iterator yields exactly `entry_count` items. -/
theorem iter_yield_behavior (d : DiskState) (l : GptPartitionEntryArrayLayout)
    (st0 : GptPartitionEntryIter)
    (hinit : d.gpt_partition_entry_array_iter l = .ok st0) :
    st0 = ⟨l, 0, none⟩ ∧
    (∀ st : GptPartitionEntryIter, st.entry_index < st.layout.num_entries →
      ((iterNext d st).fst.isSome = true ∧
       (∀ data, st.buffered = none →
          d.read_blocks (st.layout.start_lba +
            st.entry_index / (d.block_size / st.layout.entry_size)) 1 =
            .ok data →
          (iterNext d st).fst = some (.ok (GptPartitionEntry.decode (sliceD data
            (st.entry_index % (d.block_size / st.layout.entry_size) *
              st.layout.entry_size) 128)))) ∧
       (∀ err, st.buffered = none →
          d.read_blocks (st.layout.start_lba +
            st.entry_index / (d.block_size / st.layout.entry_size)) 1 =
            .error err →
          (iterNext d st).fst = some (.error err)))) ∧
    (∀ st : GptPartitionEntryIter, st.layout.num_entries ≤ st.entry_index →
      iterNext d st = (none, st)) ∧
    (iterRun d st0).length = l.num_entries := by
  have hst0 : st0 = ⟨l, 0, none⟩ := by
    unfold DiskState.gpt_partition_entry_array_iter at hinit
    by_cases hc : l.entry_size = 0 ∨ d.block_size < l.entry_size
    · rw [if_pos hc] at hinit; cases hinit
    · rw [if_neg hc] at hinit; cases hinit; rfl
  refine ⟨hst0, ?_, fun st h => iterNext_none d st h, ?_⟩
  · intro st h
    refine ⟨(iterNext_isSome d st h).1, ?_, ?_⟩
    · intro data hbuf hread
      rw [iterNext_fresh_ok d st data h hbuf hread]
    · intro err hbuf hread
      rw [iterNext_fresh_error d st err h hbuf hread]
  · unfold iterRun
    rw [hst0]
    exact iterRunAux_length d _ _ (by simp)

/-- Concrete instantiation of `iter_yield_behavior` at the reference
disk and the primary array layout. -/
theorem iter_yield_behavior_witness :
    referenceDisk.gpt_partition_entry_array_iter
      create_primary_header.get_partition_entry_array_layout =
      .ok ⟨create_primary_header.get_partition_entry_array_layout, 0, none⟩ ∧
    (iterRun referenceDisk
      ⟨create_primary_header.get_partition_entry_array_layout, 0, none⟩).length =
      create_primary_header.get_partition_entry_array_layout.num_entries :=
  ⟨rfl,
   (iter_yield_behavior referenceDisk
      create_primary_header.get_partition_entry_array_layout
      ⟨create_primary_header.get_partition_entry_array_layout, 0, none⟩
      rfl).2.2.2⟩

/-! ## Arithmetic of the array layout -/

theorem rounded_ge_exact (x bs : Nat) (hbs : 0 < bs) :
    x ≤ (x + bs - 1) / bs * bs := by
  have h1 := Nat.div_add_mod (x + bs - 1) bs
  have h2 : (x + bs - 1) % bs < bs := Nat.mod_lt _ hbs
  have h3 : (x + bs - 1) / bs * bs = bs * ((x + bs - 1) / bs) :=
    Nat.mul_comm _ _
  omega

theorem layout_arith (E bs N i : Nat) (hE : 0 < E) (hdvd : E ∣ bs)
    (hbs : 0 < bs) (hi : i < N) :
    i / (bs / E) < (E * N + bs - 1) / bs ∧
    i / (bs / E) * bs + i % (bs / E) * E = i * E ∧
    i % (bs / E) * E + E ≤ bs := by
  obtain ⟨m, hm⟩ := hdvd
  subst hm
  have hm0 : 0 < m := by
    rcases Nat.eq_zero_or_pos m with h | h
    · subst h; simp at hbs
    · exact h
  have hepb : E * m / E = m := Nat.mul_div_cancel_left m hE
  rw [hepb]
  refine ⟨?_, ?_, ?_⟩
  · have h1 : i / m * m ≤ i := Nat.div_mul_le_self i m
    have h2 : i / m * m < N := lt_of_le_of_lt h1 hi
    have h4 : E * N ≤ (E * N + E * m - 1) / (E * m) * (E * m) :=
      rounded_ge_exact (E * N) (E * m) hbs
    have h5 : i / m * (E * m) < E * N := by
      calc i / m * (E * m) = i / m * m * E := by ring
        _ < N * E := (Nat.mul_lt_mul_right hE).mpr h2
        _ = E * N := by ring
    exact Nat.lt_of_mul_lt_mul_right (lt_of_lt_of_le h5 h4)
  · have h : m * (i / m) + i % m = i := Nat.div_add_mod i m
    calc i / m * (E * m) + i % m * E = (m * (i / m) + i % m) * E := by ring
      _ = i * E := by rw [h]
  · have h : i % m < m := Nat.mod_lt i hm0
    calc i % m * E + E = (i % m + 1) * E := by ring
      _ ≤ m * E := Nat.mul_le_mul_right E (by omega)
      _ = E * m := by ring

theorem iterNext_inv (d : DiskState) (l : GptPartitionEntryArrayLayout)
    (st : GptPartitionEntryIter)
    (hE : 0 < l.entry_size) (hdvd : l.entry_size ∣ d.block_size)
    (hbs : 0 < d.block_size)
    (hfit : l.start_lba + l.num_blocks d.block_size ≤ d.num_blocks)
    (hlay : st.layout = l) (hi : st.entry_index < l.num_entries)
    (hbuf : st.buffered = none ∨ ∃ b, st.buffered = some (b,
      readRange d.bytes ((l.start_lba + b) * d.block_size) d.block_size)) :
    iterNext d st = (some (.ok (GptPartitionEntry.decode (sliceD
        (readRange d.bytes ((l.start_lba + st.entry_index /
          (d.block_size / l.entry_size)) * d.block_size) d.block_size)
        (st.entry_index % (d.block_size / l.entry_size) * l.entry_size) 128))),
      ⟨l, st.entry_index + 1,
        some (st.entry_index / (d.block_size / l.entry_size),
          readRange d.bytes ((l.start_lba + st.entry_index /
            (d.block_size / l.entry_size)) * d.block_size) d.block_size)⟩) := by
  have hblk := (layout_arith l.entry_size d.block_size l.num_entries
    st.entry_index hE hdvd hbs hi).1
  have hread : d.read_blocks (l.start_lba +
      st.entry_index / (d.block_size / l.entry_size)) 1 =
      .ok (readRange d.bytes ((l.start_lba + st.entry_index /
        (d.block_size / l.entry_size)) * d.block_size) d.block_size) := by
    unfold DiskState.read_blocks
    rw [if_pos (by
      unfold GptPartitionEntryArrayLayout.num_blocks
        GptPartitionEntryArrayLayout.num_bytes_exact at hfit
      omega)]
    rw [Nat.one_mul]
  unfold iterNext
  rw [if_pos (by rw [hlay]; exact hi)]
  dsimp only
  simp only [hlay]
  rcases hbuf with hb | ⟨b, hb⟩
  · simp only [hb]
    rw [hread]
  · simp only [hb]
    by_cases hc : b = st.entry_index / (d.block_size / l.entry_size)
    · subst hc
      rw [if_pos rfl]
    · rw [if_neg hc, hread]

theorem iterRunAux_entries (d : DiskState) (l : GptPartitionEntryArrayLayout)
    (hE : 0 < l.entry_size) (hdvd : l.entry_size ∣ d.block_size)
    (hbs : 0 < d.block_size)
    (hfit : l.start_lba + l.num_blocks d.block_size ≤ d.num_blocks) :
    ∀ fuel st, st.layout = l → st.entry_index + fuel = l.num_entries →
    (st.buffered = none ∨ ∃ b, st.buffered = some (b,
      readRange d.bytes ((l.start_lba + b) * d.block_size) d.block_size)) →
    iterRunAux d fuel st = (List.range fuel).map fun k =>
      .ok (GptPartitionEntry.decode (sliceD
        (readRange d.bytes ((l.start_lba + (st.entry_index + k) /
          (d.block_size / l.entry_size)) * d.block_size) d.block_size)
        ((st.entry_index + k) % (d.block_size / l.entry_size) *
          l.entry_size) 128)) := by
  intro fuel
  induction fuel with
  | zero => intro st _ _ _; rfl
  | succ n ih =>
    intro st hlay hcount hbuf
    have hi : st.entry_index < l.num_entries := by omega
    have hstep := iterNext_inv d l st hE hdvd hbs hfit hlay hi hbuf
    show (match iterNext d st with
      | (none, _) => []
      | (some r, st2) => r :: iterRunAux d n st2) = _
    rw [hstep]
    dsimp only
    rw [ih ⟨l, st.entry_index + 1,
        some (st.entry_index / (d.block_size / l.entry_size),
          readRange d.bytes ((l.start_lba + st.entry_index /
            (d.block_size / l.entry_size)) * d.block_size) d.block_size)⟩
      rfl (by simp only; omega)
      (Or.inr ⟨st.entry_index / (d.block_size / l.entry_size), rfl⟩)]
    rw [List.range_succ_eq_map]
    simp only [List.map_cons, List.map_map, Function.comp, Nat.add_zero]
    congr 1
    apply List.map_congr_left
    intro k hk
    have he : st.entry_index + 1 + k = st.entry_index + (k + 1) := by omega
    rw [he]
    simp [Function.comp_apply, Nat.succ_eq_add_one]

/-- C2: storing a partition entry array on the disk and reading it back
through the whole-array path and through the iterator path yields
identical entries in identical order, each equal to the entries that
were written (stated for layouts whose entry size is at least one
record, 128 bytes, and divides the block size — the iterator advances in
whole-block groups). -/
theorem array_write_read_roundtrip (d0 : DiskState)
    (l : GptPartitionEntryArrayLayout) (es : List GptPartitionEntry)
    (hbs : 0 < d0.block_size)
    (hdvd : l.entry_size ∣ d0.block_size)
    (hesz : 128 ≤ l.entry_size)
    (hN : es.length = l.num_entries)
    (hpos : 0 < l.num_entries)
    (hwf : ∀ e ∈ es, e.wf)
    (hfit : l.start_lba + l.num_blocks d0.block_size ≤ d0.num_blocks) :
    ∃ d1, d0.write_gpt_partition_entry_array
        (setEntriesFrom (GptPartitionEntryArray.new l d0.block_size) 0 es) =
        .ok d1 ∧
      (∃ arr, d1.read_gpt_partition_entry_array l = .ok arr ∧
        ∀ i (hi : i < es.length),
          arr.get_partition_entry i = some (es.get ⟨i, hi⟩)) ∧
      iterRun d1 ⟨l, 0, none⟩ = es.map .ok := by
  have hE : 0 < l.entry_size := by omega
  have hlayA : (setEntriesFrom (GptPartitionEntryArray.new l d0.block_size)
      0 es).layout = l := setEntriesFrom_layout es _ 0
  have hstor_len : (setEntriesFrom (GptPartitionEntryArray.new l d0.block_size)
      0 es).storage.length = l.num_blocks d0.block_size * d0.block_size := by
    rw [setEntriesFrom_storage_length]
    show (List.replicate (l.num_bytes_rounded d0.block_size) 0).length = _
    rw [List.length_replicate]
    rfl
  have hexact : l.num_bytes_exact ≤ l.num_blocks d0.block_size * d0.block_size := by
    unfold GptPartitionEntryArrayLayout.num_blocks
    exact rounded_ge_exact _ _ hbs
  have hnb : 1 ≤ l.num_blocks d0.block_size := by
    unfold GptPartitionEntryArrayLayout.num_blocks
      GptPartitionEntryArrayLayout.num_bytes_exact
    rw [Nat.le_div_iff_mul_le hbs]
    have h1 : 1 ≤ l.entry_size * l.num_entries := Nat.mul_pos hE hpos
    omega
  set stor := (setEntriesFrom (GptPartitionEntryArray.new l d0.block_size)
    0 es).storage with hstor_def
  have hbyte : ∀ p, p < l.num_blocks d0.block_size * d0.block_size →
      writeRange d0.bytes (l.start_lba * d0.block_size) stor
        (l.start_lba * d0.block_size + p) = stor.getD p 0 := by
    intro p hp
    unfold writeRange
    rw [if_pos (by rw [hstor_len]; omega)]
    congr 1
    omega
  have hslot : ∀ i (hi : i < es.length),
      sliceD stor (i * l.entry_size) 128 = (es.get ⟨i, hi⟩).encode := by
    intro i hi
    have hfit2 : (0 + es.length) *
        (GptPartitionEntryArray.new l d0.block_size).layout.entry_size ≤
        (GptPartitionEntryArray.new l d0.block_size).storage.length := by
      show (0 + es.length) * l.entry_size ≤
        (List.replicate (l.num_bytes_rounded d0.block_size) 0).length
      rw [List.length_replicate, Nat.zero_add, hN]
      show l.num_entries * l.entry_size ≤
        l.num_blocks d0.block_size * d0.block_size
      calc l.num_entries * l.entry_size
          = l.entry_size * l.num_entries := Nat.mul_comm _ _
        _ = l.num_bytes_exact := rfl
        _ ≤ _ := hexact
    have h := setEntriesFrom_slot es (GptPartitionEntryArray.new l d0.block_size)
      0 i hi hesz hfit2 hwf
    simpa [GptPartitionEntryArray.new] using h
  have harr : readRange (writeRange d0.bytes (l.start_lba * d0.block_size) stor)
      (l.start_lba * d0.block_size)
      (l.num_blocks d0.block_size * d0.block_size) = stor := by
    apply list_ext_getD
    · rw [readRange_length, hstor_len]
    · intro k hk
      rw [readRange_length] at hk
      rw [getD_readRange _ _ _ _ hk]
      exact hbyte k hk
  refine ⟨{ d0 with bytes := writeRange d0.bytes (l.start_lba * d0.block_size) stor }, ?_, ?_, ?_⟩
  · unfold DiskState.write_gpt_partition_entry_array DiskState.write_blocks
    rw [hlayA, hstor_len]
    rw [if_neg (by
      rw [Nat.mul_mod_left]
      have h1 : 0 < l.num_blocks d0.block_size * d0.block_size :=
        Nat.mul_pos (by omega) hbs
      omega)]
    rw [if_pos (by rw [Nat.mul_div_cancel _ hbs]; exact hfit)]
  · refine ⟨⟨l, readRange (writeRange d0.bytes (l.start_lba * d0.block_size) stor)
      (l.start_lba * d0.block_size)
      (l.num_blocks d0.block_size * d0.block_size)⟩, ?_, ?_⟩
    · unfold DiskState.read_gpt_partition_entry_array DiskState.read_blocks
      rw [if_pos (by exact hfit)]
      rfl
    · intro i hi
      unfold GptPartitionEntryArray.get_partition_entry
      dsimp only
      rw [if_pos (by omega)]
      rw [harr, hslot i hi,
        GptPartitionEntry.decode_encode _ (hwf _ (List.get_mem es i hi))]
  · unfold iterRun
    dsimp only
    rw [Nat.sub_zero]
    have hrun := iterRunAux_entries
      { d0 with bytes := writeRange d0.bytes (l.start_lba * d0.block_size) stor }
      l hE (by exact hdvd) (by exact hbs) (by exact hfit) l.num_entries
      ⟨l, 0, none⟩ rfl (by simp) (Or.inl rfl)
    dsimp only at hrun
    rw [hrun]
    apply List.ext_getElem
    · simp [hN]
    · intro i h1 h2
      simp only [List.getElem_map, List.getElem_range]
      have hiN : i < l.num_entries := by simpa using h1
      obtain ⟨ha1, ha2, ha3⟩ := layout_arith l.entry_size d0.block_size
        l.num_entries i hE hdvd hbs hiN
      have hsl : sliceD (readRange
          (writeRange d0.bytes (l.start_lba * d0.block_size) stor)
          ((l.start_lba + (0 + i) / (d0.block_size / l.entry_size)) *
            d0.block_size) d0.block_size)
          ((0 + i) % (d0.block_size / l.entry_size) * l.entry_size) 128 =
          sliceD stor (i * l.entry_size) 128 := by
        apply list_ext_getD
        · rw [sliceD_length, sliceD_length]
        · intro t ht
          rw [sliceD_length] at ht
          rw [getD_sliceD _ _ _ _ ht, getD_sliceD _ _ _ _ ht]
          rw [Nat.zero_add]
          rw [getD_readRange _ _ _ _ (by omega)]
          have hdist : (l.start_lba + i / (d0.block_size / l.entry_size)) *
              d0.block_size = l.start_lba * d0.block_size +
              i / (d0.block_size / l.entry_size) * d0.block_size :=
            Nat.add_mul _ _ _
          have haddr : (l.start_lba + i / (d0.block_size / l.entry_size)) *
              d0.block_size +
              (i % (d0.block_size / l.entry_size) * l.entry_size + t) =
              l.start_lba * d0.block_size + (i * l.entry_size + t) := by
            omega
          rw [haddr]
          rw [hbyte (i * l.entry_size + t) (by
            have hb1 : (i + 1) * l.entry_size ≤
                l.num_entries * l.entry_size :=
              Nat.mul_le_mul_right _ (by omega)
            have hb2 : l.num_entries * l.entry_size = l.num_bytes_exact :=
              Nat.mul_comm _ _
            have hb3 : (i + 1) * l.entry_size =
                i * l.entry_size + l.entry_size := Nat.succ_mul _ _
            omega)]
      rw [hsl, hslot i (by omega),
        GptPartitionEntry.decode_encode _ (hwf _ (List.get_mem es i (by omega)))]
      simp

/-- Concrete instantiation of `array_write_read_roundtrip`: one entry,
entry size 128, 512-byte blocks, starting at LBA 2 of the zero disk. -/
theorem array_write_read_roundtrip_witness :
    ∃ d1, zeroDisk.write_gpt_partition_entry_array
        (setEntriesFrom (GptPartitionEntryArray.new ⟨2, 128, 1⟩
          zeroDisk.block_size) 0 [create_partition_entry]) = .ok d1 ∧
      (∃ arr, d1.read_gpt_partition_entry_array ⟨2, 128, 1⟩ = .ok arr ∧
        ∀ i (hi : i < ([create_partition_entry] :
            List GptPartitionEntry).length),
          arr.get_partition_entry i =
            some (([create_partition_entry] :
              List GptPartitionEntry).get ⟨i, hi⟩)) ∧
      iterRun d1 ⟨⟨2, 128, 1⟩, 0, none⟩ = [create_partition_entry].map .ok :=
  array_write_read_roundtrip zeroDisk ⟨2, 128, 1⟩ [create_partition_entry]
    (by decide) (by decide) (by decide) (by decide) (by decide)
    (by decide) (by decide)

/-! ## Claim theorems: the end-to-end scenario -/

/-- The partition entry array built by the write test: a fresh zeroed
array for the primary header's layout with the test entry in slot 0. -/
def c1Array : GptPartitionEntryArray :=
  (GptPartitionEntryArray.new
    create_primary_header.get_partition_entry_array_layout
    512).set_partition_entry 0 create_partition_entry

/-- The write sequence of `test_disk_write`: protective MBR, primary and
secondary headers, both entry arrays, flush, on the zero-filled 4 MiB
medium. -/
def c1WriteSequence : Except DiskError DiskState := do
  let d1 ← zeroDisk.write_protective_mbr
  let d2 ← d1.write_primary_gpt_header create_primary_header
  let d3 ← d2.write_secondary_gpt_header create_secondary_header
  let d4 ← d3.write_gpt_partition_entry_array c1Array
  let d5 ← d4.write_gpt_partition_entry_array
    (c1Array.set_start_lba create_secondary_header.partition_entry_lba)
  d5.flush

theorem except_bind_ok {α β γ : Type} (a : β) (f : β → Except α γ) :
    (Except.ok a >>= f) = f a := rfl

theorem getD_range_map (f : Nat → Nat) (n k : Nat) (h : k < n) :
    ((List.range n).map f).getD k 0 = f k := by
  rw [List.getD_eq_getElem _ _ (by simpa using h)]
  simp
/-- A successful whole-array read returns the borrowed view over exactly
the spanned byte range. -/
theorem read_array_ok (d : DiskState) (l : GptPartitionEntryArrayLayout)
    (hok : l.start_lba + l.num_blocks d.block_size ≤ d.num_blocks) :
    d.read_gpt_partition_entry_array l =
      .ok ⟨l, readRange d.bytes (l.start_lba * d.block_size)
        (l.num_blocks d.block_size * d.block_size)⟩ := by
  unfold DiskState.read_gpt_partition_entry_array DiskState.read_blocks
  rw [if_pos hok]
  rfl

/-- Slot `i` of a view borrowed over a byte range decodes the 128 bytes
at offset `i × entry_size` within that range. -/
theorem get_slot_readRange (f : Nat → Nat) (off N : Nat)
    (l : GptPartitionEntryArrayLayout) (i : Nat) (hi : i < l.num_entries)
    (hfit : i * l.entry_size + 128 ≤ N) :
    (GptPartitionEntryArray.mk l (readRange f off N)).get_partition_entry i =
      some (GptPartitionEntry.decode (readRange f (off + i * l.entry_size) 128)) := by
  unfold GptPartitionEntryArray.get_partition_entry
  dsimp only
  rw [if_pos hi]
  congr 1
  congr 1
  apply list_ext_getD
  · rw [sliceD_length, readRange_length]
  · intro k hk
    rw [sliceD_length] at hk
    rw [getD_sliceD _ _ _ _ hk]
    rw [getD_readRange _ _ _ _ (by omega)]
    rw [getD_readRange _ _ _ _ hk]
    rw [Nat.add_assoc]

/-- The medium after the full write sequence: the five successive range
overwrites on the zeroed 4 MiB medium. -/
def c1Final : DiskState :=
  ⟨(writeRange (writeRange (writeRange (writeRange (writeRange (fun _ => 0) 0 (protectiveMbrBlock 512 8192)) 512 (create_primary_header.encode_block 512)) 4193792 (create_secondary_header.encode_block 512)) 1024 c1Array.storage) 4177408 c1Array.storage), 512, 8192⟩

/-- The primary header block image with its checksum as a literal. -/
theorem encode_block_primary : create_primary_header.encode_block 512 =
    sliceD (GptHeader.encode
      { create_primary_header with header_crc32 := 2760341571 }) 0 512 := by
  unfold GptHeader.encode_block
  rw [compute_crc32_primary]

/-- The secondary header block image with its checksum as a literal. -/
theorem encode_block_secondary : create_secondary_header.encode_block 512 =
    sliceD (GptHeader.encode
      { create_secondary_header with header_crc32 := 3689630739 }) 0 512 := by
  unfold GptHeader.encode_block
  rw [compute_crc32_secondary]

/-- The test partition entry fixture is well-formed. -/
theorem create_partition_entry_wf : create_partition_entry.wf := by decide

/-- The backing storage of the test entry array spans 32 blocks. -/
theorem c1_storage_length : c1Array.storage.length = 16384 := by
  unfold c1Array GptPartitionEntryArray.set_partition_entry GptPartitionEntryArray.new
  dsimp only
  rw [overwriteAt_length, List.length_replicate]
  rfl

/-- Re-targeting the array at the secondary LBA keeps its bytes. -/
theorem c1_set_start_lba_storage : (c1Array.set_start_lba
    create_secondary_header.partition_entry_lba).storage = c1Array.storage := by
  unfold GptPartitionEntryArray.set_start_lba
  dsimp only

/-- Pointwise contents of the test array storage: the entry image in the
first 128 bytes, zeros beyond. -/
theorem c1_storage_getD : ∀ k, k < 16384 → c1Array.storage.getD k 0 =
    if k < 128 then create_partition_entry.encode.getD k 0 else 0 := by
  intro k hk
  unfold c1Array GptPartitionEntryArray.set_partition_entry GptPartitionEntryArray.new
  dsimp only
  rw [getD_overwriteAt _ _ _ _ (by
    rw [List.length_replicate]
    show k < 16384
    exact hk)]
  rw [GptPartitionEntry.encode_length _ create_partition_entry_wf]
  simp only [Nat.zero_mul, Nat.zero_add, Nat.sub_zero]
  by_cases h2 : k < 128
  · rw [if_pos ⟨Nat.zero_le _, h2⟩, if_pos h2]
  · rw [if_neg (by omega), if_neg h2]
    simp [List.getD]

/-- Writing the test array storage over a range, as an explicit function
update. -/
theorem writeRange_c1Array : ∀ (f : Nat → Nat) (off : Nat),
    writeRange f off c1Array.storage =
      fun addr => if off ≤ addr ∧ addr < off + 16384 then
        (if addr - off < 128 then
          create_partition_entry.encode.getD (addr - off) 0 else 0)
      else f addr := by
  intro f off
  funext addr
  simp only [writeRange]
  rw [c1_storage_length]
  by_cases hc : off ≤ addr ∧ addr < off + 16384
  · rw [if_pos hc, if_pos hc, c1_storage_getD (addr - off) (by omega)]
  · rw [if_neg hc, if_neg hc]

set_option maxRecDepth 40000 in
set_option maxHeartbeats 4000000 in
/-- The write sequence of the test succeeds and produces exactly the
five-overwrite state. -/
theorem c1_seq : c1WriteSequence = .ok c1Final := by
  have s1 : zeroDisk.write_protective_mbr =
      .ok ⟨(writeRange (fun _ => 0) 0 (protectiveMbrBlock 512 8192)), 512, 8192⟩ := by rfl
  have s2 : (⟨(writeRange (fun _ => 0) 0 (protectiveMbrBlock 512 8192)), 512, 8192⟩ : DiskState).write_primary_gpt_header
      create_primary_header = .ok ⟨(writeRange (writeRange (fun _ => 0) 0 (protectiveMbrBlock 512 8192)) 512 (create_primary_header.encode_block 512)), 512, 8192⟩ := by rfl
  have s3 : (⟨(writeRange (writeRange (fun _ => 0) 0 (protectiveMbrBlock 512 8192)) 512 (create_primary_header.encode_block 512)), 512, 8192⟩ : DiskState).write_secondary_gpt_header
      create_secondary_header = .ok ⟨(writeRange (writeRange (writeRange (fun _ => 0) 0 (protectiveMbrBlock 512 8192)) 512 (create_primary_header.encode_block 512)) 4193792 (create_secondary_header.encode_block 512)), 512, 8192⟩ := by rfl
  have s4 : (⟨(writeRange (writeRange (writeRange (fun _ => 0) 0 (protectiveMbrBlock 512 8192)) 512 (create_primary_header.encode_block 512)) 4193792 (create_secondary_header.encode_block 512)), 512, 8192⟩ : DiskState).write_gpt_partition_entry_array
      c1Array = .ok ⟨(writeRange (writeRange (writeRange (writeRange (fun _ => 0) 0 (protectiveMbrBlock 512 8192)) 512 (create_primary_header.encode_block 512)) 4193792 (create_secondary_header.encode_block 512)) 1024 c1Array.storage), 512, 8192⟩ := by
    unfold DiskState.write_gpt_partition_entry_array DiskState.write_blocks
    rw [c1_storage_length]
    rw [if_neg (by decide), if_pos (by decide)]
    rfl
  have s5 : (⟨(writeRange (writeRange (writeRange (writeRange (fun _ => 0) 0 (protectiveMbrBlock 512 8192)) 512 (create_primary_header.encode_block 512)) 4193792 (create_secondary_header.encode_block 512)) 1024 c1Array.storage), 512, 8192⟩ : DiskState).write_gpt_partition_entry_array
      (c1Array.set_start_lba create_secondary_header.partition_entry_lba) =
      .ok ⟨(writeRange (writeRange (writeRange (writeRange (writeRange (fun _ => 0) 0 (protectiveMbrBlock 512 8192)) 512 (create_primary_header.encode_block 512)) 4193792 (create_secondary_header.encode_block 512)) 1024 c1Array.storage) 4177408 c1Array.storage), 512, 8192⟩ := by
    unfold DiskState.write_gpt_partition_entry_array DiskState.write_blocks
    rw [c1_set_start_lba_storage, c1_storage_length]
    rw [if_neg (by decide), if_pos (by decide)]
    rfl
  unfold c1WriteSequence
  rw [s1]
  simp only [except_bind_ok]
  rw [s2]
  simp only [except_bind_ok]
  rw [s3]
  simp only [except_bind_ok]
  rw [s4]
  simp only [except_bind_ok]
  rw [s5]
  simp only [except_bind_ok]
  rfl

set_option maxRecDepth 40000 in
set_option maxHeartbeats 4000000 in
/-- Byte 510 of the final medium holds the first boot-signature byte. -/
theorem c1_byte_510 : c1Final.bytes 510 = 0x55 := by
  unfold c1Final
  simp only [writeRange_c1Array]
  decide

set_option maxRecDepth 40000 in
set_option maxHeartbeats 4000000 in
/-- Byte 511 of the final medium holds the second boot-signature byte. -/
theorem c1_byte_511 : c1Final.bytes 511 = 0xAA := by
  unfold c1Final
  simp only [writeRange_c1Array]
  decide

set_option maxRecDepth 40000 in
set_option maxHeartbeats 4000000 in
/-- The final medium holds "EFI PART" at the start of LBA 1. -/
theorem c1_efi_primary : readRange c1Final.bytes 512 8 = efiSignature := by
  unfold c1Final
  simp only [writeRange_c1Array]
  rw [encode_block_primary]
  decide

set_option maxRecDepth 40000 in
set_option maxHeartbeats 4000000 in
/-- The final medium holds "EFI PART" at the start of the last LBA. -/
theorem c1_efi_secondary : readRange c1Final.bytes 4193792 8 = efiSignature := by
  unfold c1Final
  simp only [writeRange_c1Array]
  rw [encode_block_secondary]
  decide

set_option maxRecDepth 40000 in
set_option maxHeartbeats 4000000 in
/-- The final medium matches the reference image on the whole MBR
block. -/
theorem c1_mbr_block : readRange c1Final.bytes 0 512 =
    readRange referenceDisk.bytes 0 512 := by
  unfold c1Final
  simp only [writeRange_c1Array]
  decide

set_option maxRecDepth 40000 in
set_option maxHeartbeats 4000000 in
/-- The final medium matches the reference image on the whole primary
header block, checksum included. -/
theorem c1_primary_block : readRange c1Final.bytes 512 512 =
    readRange referenceDisk.bytes 512 512 := by
  unfold c1Final
  simp only [writeRange_c1Array]
  rw [encode_block_primary]
  decide

set_option maxRecDepth 40000 in
set_option maxHeartbeats 4000000 in
/-- The final medium matches the reference image on the whole secondary
header block, checksum included. -/
theorem c1_secondary_block : readRange c1Final.bytes 4193792 512 =
    readRange referenceDisk.bytes 4193792 512 := by
  unfold c1Final
  simp only [writeRange_c1Array]
  rw [encode_block_secondary]
  decide

set_option maxRecDepth 40000 in
set_option maxHeartbeats 4000000 in
/-- The final medium matches the reference image on the first two slots
of the primary entry array. -/
theorem c1_array1_region : readRange c1Final.bytes 1024 256 =
    readRange referenceDisk.bytes 1024 256 := by
  unfold c1Final
  simp only [writeRange_c1Array]
  decide

set_option maxRecDepth 40000 in
set_option maxHeartbeats 4000000 in
/-- The final medium matches the reference image on the first two slots
of the secondary entry array. -/
theorem c1_array2_region : readRange c1Final.bytes 4177408 256 =
    readRange referenceDisk.bytes 4177408 256 := by
  unfold c1Final
  simp only [writeRange_c1Array]
  decide

set_option maxRecDepth 40000 in
set_option maxHeartbeats 4000000 in
/-- Slot 0 of the primary array on the final medium holds exactly the
written entry image. -/
theorem c1_slot0_primary_bytes : readRange c1Final.bytes 1024 128 =
    create_partition_entry.encode := by
  unfold c1Final
  simp only [writeRange_c1Array]
  decide

set_option maxRecDepth 40000 in
set_option maxHeartbeats 4000000 in
/-- Slot 1 of the primary array on the final medium is all zeros. -/
theorem c1_slot1_primary_bytes : readRange c1Final.bytes 1152 128 =
    List.replicate 128 0 := by
  unfold c1Final
  simp only [writeRange_c1Array]
  decide

set_option maxRecDepth 40000 in
set_option maxHeartbeats 4000000 in
/-- Slot 0 of the secondary array on the final medium holds exactly the
written entry image. -/
theorem c1_slot0_secondary_bytes : readRange c1Final.bytes 4177408 128 =
    create_partition_entry.encode := by
  unfold c1Final
  simp only [writeRange_c1Array]
  decide

set_option maxRecDepth 40000 in
set_option maxHeartbeats 4000000 in
/-- Slot 1 of the secondary array on the final medium is all zeros. -/
theorem c1_slot1_secondary_bytes : readRange c1Final.bytes 4177536 128 =
    List.replicate 128 0 := by
  unfold c1Final
  simp only [writeRange_c1Array]
  decide

/-- Byte offset of primary slot 0 on the medium. -/
theorem c1_offset_p0 : create_primary_header.get_partition_entry_array_layout.start_lba * c1Final.block_size +
    0 * create_primary_header.get_partition_entry_array_layout.entry_size = 1024 := rfl

/-- Byte offset of primary slot 1 on the medium. -/
theorem c1_offset_p1 : create_primary_header.get_partition_entry_array_layout.start_lba * c1Final.block_size +
    1 * create_primary_header.get_partition_entry_array_layout.entry_size = 1152 := rfl

/-- Byte offset of secondary slot 0 on the medium. -/
theorem c1_offset_s0 : create_secondary_header.get_partition_entry_array_layout.start_lba * c1Final.block_size +
    0 * create_secondary_header.get_partition_entry_array_layout.entry_size = 4177408 := rfl

/-- Byte offset of secondary slot 1 on the medium. -/
theorem c1_offset_s1 : create_secondary_header.get_partition_entry_array_layout.start_lba * c1Final.block_size +
    1 * create_secondary_header.get_partition_entry_array_layout.entry_size = 4177536 := rfl

set_option maxRecDepth 40000 in
set_option maxHeartbeats 4000000 in
/-- C1: on the zero-filled 4 MiB medium with 512-byte blocks, the write
sequence (protective MBR, primary header at LBA 1 with entry array at
LBA 2 and 128 entries of 128 bytes, mirrored secondary header at the
last LBA, the test entry in slot 0 of both arrays, flush) succeeds and
reproduces the reference image at every region the claim names: the boot
signature `0x55AA` in the last two bytes of block 0 (and the whole MBR
block), "EFI PART" at LBA 1 and the last LBA (and the whole header
blocks, checksums included), the first two slots of each entry array,
with slot 0 holding exactly the written entry bytes and slot 1 all
zeros; and reading each array back through the whole-array path succeeds
with slot 0 equal to the written entry and reported used, and slot 1
reported unused. -/
theorem end_to_end_write_matches_reference :
    ∃ d, c1WriteSequence = .ok d ∧
      d.bytes 510 = 0x55 ∧ d.bytes 511 = 0xAA ∧
      readRange d.bytes 512 8 = efiSignature ∧
      readRange d.bytes 4193792 8 = efiSignature ∧
      readRange d.bytes 0 512 = readRange referenceDisk.bytes 0 512 ∧
      readRange d.bytes 512 512 = readRange referenceDisk.bytes 512 512 ∧
      readRange d.bytes 4193792 512 = readRange referenceDisk.bytes 4193792 512 ∧
      readRange d.bytes 1024 256 = readRange referenceDisk.bytes 1024 256 ∧
      readRange d.bytes 4177408 256 = readRange referenceDisk.bytes 4177408 256 ∧
      readRange d.bytes 1024 128 = create_partition_entry.encode ∧
      readRange d.bytes 1152 128 = List.replicate 128 0 ∧
      readRange d.bytes 4177408 128 = create_partition_entry.encode ∧
      readRange d.bytes 4177536 128 = List.replicate 128 0 ∧
      (∃ arr1, d.read_gpt_partition_entry_array
          create_primary_header.get_partition_entry_array_layout = .ok arr1 ∧
        arr1.get_partition_entry 0 = some create_partition_entry ∧
        (arr1.get_partition_entry 0).map GptPartitionEntry.is_used = some true ∧
        (arr1.get_partition_entry 1).map GptPartitionEntry.is_used = some false) ∧
      (∃ arr2, d.read_gpt_partition_entry_array
          create_secondary_header.get_partition_entry_array_layout = .ok arr2 ∧
        arr2.get_partition_entry 0 = some create_partition_entry ∧
        (arr2.get_partition_entry 0).map GptPartitionEntry.is_used = some true ∧
        (arr2.get_partition_entry 1).map GptPartitionEntry.is_used = some false) := by
  refine ⟨c1Final, c1_seq, c1_byte_510, c1_byte_511, c1_efi_primary,
    c1_efi_secondary, c1_mbr_block, c1_primary_block, c1_secondary_block,
    c1_array1_region, c1_array2_region, c1_slot0_primary_bytes,
    c1_slot1_primary_bytes, c1_slot0_secondary_bytes, c1_slot1_secondary_bytes,
    ⟨_, read_array_ok _ _ (by decide), ?_, ?_, ?_⟩,
    ⟨_, read_array_ok _ _ (by decide), ?_, ?_, ?_⟩⟩
  · refine (get_slot_readRange _ _ _ _ _ (by decide) (by decide)).trans ?_
    rw [c1_offset_p0, c1_slot0_primary_bytes,
      GptPartitionEntry.decode_encode _ create_partition_entry_wf]
  · refine (congrArg (Option.map GptPartitionEntry.is_used)
      (get_slot_readRange _ _ _ _ _ (by decide) (by decide))).trans ?_
    rw [c1_offset_p0, c1_slot0_primary_bytes,
      GptPartitionEntry.decode_encode _ create_partition_entry_wf]
    decide
  · refine (congrArg (Option.map GptPartitionEntry.is_used)
      (get_slot_readRange _ _ _ _ _ (by decide) (by decide))).trans ?_
    rw [c1_offset_p1, c1_slot1_primary_bytes]
    decide
  · refine (get_slot_readRange _ _ _ _ _ (by decide) (by decide)).trans ?_
    rw [c1_offset_s0, c1_slot0_secondary_bytes,
      GptPartitionEntry.decode_encode _ create_partition_entry_wf]
  · refine (congrArg (Option.map GptPartitionEntry.is_used)
      (get_slot_readRange _ _ _ _ _ (by decide) (by decide))).trans ?_
    rw [c1_offset_s0, c1_slot0_secondary_bytes,
      GptPartitionEntry.decode_encode _ create_partition_entry_wf]
    decide
  · refine (congrArg (Option.map GptPartitionEntry.is_used)
      (get_slot_readRange _ _ _ _ _ (by decide) (by decide))).trans ?_
    rw [c1_offset_s1, c1_slot1_secondary_bytes]
    decide
